import Mathlib

/-!
Shallow embedding of the Service Core of the `p2p` repository
(`src/service.rs`, with the missing collaborator files
`service/config.rs` and `context.rs` modelled from the spec where noted).

All maps (`HashMap`) are modelled as association lists with first-key
lookup; `HashSet` is a duplicate-free list built with `sinsert`; bounded
mpsc channels are modelled as a capacity plus a queue; user callbacks and
spawned tasks are recorded in an append-only effect log `out`.
-/

namespace P2P

/-- Association-list lookup: value of the first pair whose key matches
(models `HashMap::get`). -/
def alookup [DecidableEq κ] : List (κ × α) → κ → Option α
  | [], _ => none
  | (k, v) :: rest, key => if k = key then some v else alookup rest key

/-- Association-list insert: replace the value at the first matching key,
else append (models `HashMap::insert`). -/
def ainsert [DecidableEq κ] : List (κ × α) → κ → α → List (κ × α)
  | [], key, v => [(key, v)]
  | (k, w) :: rest, key, v =>
    if k = key then (key, v) :: rest else (k, w) :: ainsert rest key v

/-- Association-list erase (models `HashMap::remove`, discarding the value). -/
def aerase [DecidableEq κ] (l : List (κ × α)) (key : κ) : List (κ × α) :=
  l.filter (fun p => p.1 ≠ key)

/-- Set insert on a duplicate-free list (models `HashSet::insert`). -/
def sinsert [DecidableEq α] (l : List α) (a : α) : List α :=
  if a ∈ l then l else l ++ [a]

/-- Set removal (models `HashSet::remove`). -/
def serase [DecidableEq α] (l : List α) (a : α) : List α :=
  l.filter (fun x => x ≠ a)

/-- `const BUF_SHRINK_THRESHOLD` (capacity shrinking has no observable
effect in the model). -/
def BUF_SHRINK_THRESHOLD : Nat := 255
/-- `const RECEIVED_BUFFER_SIZE`. -/
def RECEIVED_BUFFER_SIZE : Nat := 2048
/-- `const RECEIVED_SIZE`: capacity of the protocol-handle channels. -/
def RECEIVED_SIZE : Nat := 512
/-- `const SEND_SIZE`: capacity of the per-session outbound channels. -/
def SEND_SIZE : Nat := 512

/-- `Priority` from `service/event.rs` (file not under src; two priorities
per the spec's quick/normal queues). -/
inductive Priority where
  | high
  | normal
deriving DecidableEq, Repr

/-- `Priority::is_high`. -/
def Priority.is_high : Priority → Bool
  | .high => true
  | .normal => false

/-- `SessionType` (src/service.rs). -/
inductive SessionType where
  | outbound
  | inbound
deriving DecidableEq, Repr

/-- `SessionType::is_outbound` (src/service.rs). -/
def SessionType.is_outbound : SessionType → Bool
  | .outbound => true
  | .inbound => false

/-- `SessionType::is_inbound` (src/service.rs). -/
def SessionType.is_inbound (t : SessionType) : Bool :=
  !t.is_outbound

/-- `Source` (src/service.rs): who initiated a close/open. -/
inductive Source where
  | external
  | internal
deriving DecidableEq, Repr

/-- Modelled from the spec: `State` from `service/config.rs` (not under
src/): `state ∈ {Running{count}, Forever, PreShutdown}`; the count tracks
pending dials/listens. -/
inductive State where
  | running (count : Nat)
  | forever
  | preShutdown
deriving DecidableEq, Repr

/-- Modelled from the spec: increment the pending-connection counter. -/
def State.increase : State → State
  | .running n => .running (n + 1)
  | s => s

/-- Modelled from the spec: decrement the pending-connection counter. -/
def State.decrease : State → State
  | .running n => .running (n - 1)
  | s => s

/-- Modelled from the spec: `Forever` mode prevents auto-shutdown on
drain; `Running 0` means drained; `PreShutdown` after a Shutdown task. -/
def State.is_shutdown : State → Bool
  | .running n => n == 0
  | .forever => false
  | .preShutdown => true

/-- Modelled from the spec: enter the pre-shutdown state (idempotent). -/
def State.pre_shutdown (_ : State) : State := .preShutdown

/-- One component of a multiaddr: either a `/p2p/<peer-id>` component or
any other component (abstracted to a number). -/
inductive AddrProto where
  | p2p (peer : Nat)
  | comp (v : Nat)
deriving DecidableEq, Repr

/-- `Multiaddr`, abstracted as its component list. -/
abbrev Multiaddr := List AddrProto

/-- `utils::extract_peer_id` (not under src/): the peer id carried by the
first `/p2p/` component, if any. -/
def extract_peer_id (address : Multiaddr) : Option Nat :=
  address.findSome? fun
    | .p2p p => some p
    | .comp _ => none

/-- `PublicKey` (secio collaborator), abstracted to a number. -/
abbrev PublicKey := Nat

/-- `PublicKey::peer_id`: the peer id derived from a public key. The
derivation (a hash) is abstracted to an injective function. -/
def peer_id (key : PublicKey) : Nat := key

/-- Payload bytes, abstracted as a list of bytes. -/
abbrev Bytes := List Nat

/-- Error kinds (`error.rs`, collaborator): only the variants the core
produces or routes. -/
inductive Error where
  | ioError
  | dnsResolverError
  | timedOut
  | repeatedConnection (id : Nat)
  | peerIdNotMatch
  | serviceProtoHandleBlock
  | sessionProtoHandleBlock (id : Nat)
  | serviceProtoHandleAbnormallyClosed
  | sessionProtoHandleAbnormallyClosed (id : Nat)
deriving DecidableEq, Repr

/-- A bounded mpsc sender endpoint: closed flag, capacity, queued items
(models `futures::sync::mpsc::Sender` plus the queue the receiver has not
yet drained within a dispatch round). -/
structure Chan (α : Type) where
  closed : Bool
  cap : Nat
  buf : List α
deriving DecidableEq, Repr

/-- A fresh open channel of the given capacity. -/
def Chan.empty (cap : Nat) : Chan α :=
  { closed := false, cap := cap, buf := [] }

/-- Result of a non-blocking `try_send`: sent, full (returns the event),
or disconnected. -/
inductive TrySendRes (α : Type) where
  | sent
  | full (a : α)
  | closed
deriving DecidableEq, Repr

/-- `try_send` on a bounded channel: error when closed, full at capacity,
else enqueue. -/
def Chan.trySend (c : Chan α) (a : α) : TrySendRes α × Chan α :=
  if c.closed then (.closed, c)
  else if c.cap ≤ c.buf.length then (.full a, c)
  else (.sent, { c with buf := c.buf ++ [a] })

/-- One end of an inbound channel held by the service (models
`mpsc::Receiver` / `mpsc::UnboundedReceiver`). -/
structure Receiver (α : Type) where
  closed : Bool
  queue : List α
deriving DecidableEq, Repr

/-- `Receiver::close`: no further sends are accepted. -/
def Receiver.close (r : Receiver α) : Receiver α :=
  { r with closed := true }

/-- Poll a receiver: pop the next queued item if any (queued items remain
deliverable even after `close`). -/
def Receiver.pollNext (r : Receiver α) : Option α × Receiver α :=
  match r.queue with
  | [] => (none, r)
  | a :: rest => (some a, { r with queue := rest })

/-- One poll outcome of a listener's incoming stream (`MultiIncoming`,
transport collaborator): a new connection, end of stream, not ready, or
an error. -/
inductive IncomingPoll where
  | conn (remote_address : Multiaddr) (socket : Nat)
  | finished
  | notReady
  | ioErr
deriving DecidableEq, Repr

/-- `MultiIncoming`: the (pre-determined) trace of poll outcomes of a
listener. An exhausted trace polls as not-ready. -/
abbrev MultiIncoming := List IncomingPoll

/-- `SessionContext` (context.rs, not under src/; fields per the spec's
data model). The `closed` atomic is a plain boolean here. -/
structure SessionContext where
  id : Nat
  address : Multiaddr
  ty : SessionType
  remote_pubkey : Option PublicKey
  closed : Bool
deriving DecidableEq, Repr

/-- `SessionEvent` (session collaborator): events flowing between the
core and session tasks, in both directions. Byte streams are abstracted
to numeric handles, protocol-handle senders to their numeric ids. -/
inductive SessionEvent where
  | sessionClose (id : Nat)
  | handshakeSuccess (handle : Nat) (public_key : PublicKey)
      (address : Multiaddr) (ty : SessionType)
  | handshakeFail (ty : SessionType) (error : Error) (address : Multiaddr)
  | protocolMessage (id : Nat) (proto_id : Nat) (priority : Priority) (data : Bytes)
  | protocolOpen (id : Nat) (proto_id : Nat) (version : String)
      (session_sender : Option Nat)
  | protocolClose (id : Nat) (proto_id : Nat)
  | protocolSelectError (id : Nat) (proto_name : String)
  | protocolError (id : Nat) (proto_id : Nat) (error : Error)
  | dialError (address : Multiaddr) (error : Error)
  | listenError (address : Multiaddr) (error : Error)
  | sessionTimeout (id : Nat)
  | muxerError (id : Nat) (error : Error)
  | listenStart (listen_address : Multiaddr) (incoming : MultiIncoming)
  | dialStart (remote_address : Multiaddr) (stream : Nat)
deriving DecidableEq, Repr

/-- Whether a session event is a `ProtocolMessage`. -/
def SessionEvent.isProtocolMessage : SessionEvent → Bool
  | .protocolMessage _ _ _ _ => true
  | _ => false

/-- `SessionController` (context.rs, not under src/): the two per-session
bounded outbound channels plus the shared context. -/
structure SessionController where
  quick : Chan SessionEvent
  normal : Chan SessionEvent
  inner : SessionContext
deriving DecidableEq, Repr

/-- Modelled from the spec: `SessionController::try_send` (context.rs is
not under src/): non-blocking send on the channel selected by priority,
reporting full versus closed. -/
def SessionController.try_send (c : SessionController) (priority : Priority)
    (event : SessionEvent) : TrySendRes SessionEvent × SessionController :=
  if priority.is_high then
    let (r, q) := c.quick.trySend event
    (r, { c with quick := q })
  else
    let (r, q) := c.normal.trySend event
    (r, { c with normal := q })

/-- `ServiceProtocolEvent` (protocol_handle_stream.rs, collaborator):
only the variants the core itself enqueues. -/
inductive ServiceProtocolEvent where
  | setNotify (interval : Nat) (token : Nat)
  | removeNotify (token : Nat)
  | update (listen_addrs : List Multiaddr)
deriving DecidableEq, Repr

/-- `SessionProtocolEvent` (protocol_handle_stream.rs, collaborator):
only the variants the core itself enqueues. -/
inductive SessionProtocolEvent where
  | setNotify (interval : Nat) (token : Nat)
  | removeNotify (token : Nat)
  | update (listen_addrs : List Multiaddr)
deriving DecidableEq, Repr

/-- A protocol-handle channel with a unique identity (`hid`) so the model
can speak about which sender an event carries. -/
structure HandleChan (α : Type) where
  hid : Nat
  chan : Chan α
deriving DecidableEq, Repr

/-- `ServiceEvent` (service/event.rs, not under src/; variants per the
spec's interface list). -/
inductive ServiceEvent where
  | sessionOpen (session_context : SessionContext)
  | sessionClose (session_context : SessionContext)
  | listenStarted (address : Multiaddr)
  | listenClose (address : Multiaddr)
deriving DecidableEq, Repr

/-- `ServiceError` (service/event.rs, not under src/; variants per the
spec's interface list). -/
inductive ServiceError where
  | dialerError (address : Multiaddr) (error : Error)
  | listenError (address : Multiaddr) (error : Error)
  | protocolSelectError (proto_name : String) (session_context : SessionContext)
  | protocolError (id : Nat) (proto_id : Nat) (error : Error)
  | sessionTimeout (session_context : SessionContext)
  | muxerError (session_context : SessionContext) (error : Error)
  | protocolHandleError (proto_id : Nat) (error : Error)
  | sessionBlocked (session_context : SessionContext)
deriving DecidableEq, Repr

/-- `ProtocolEvent` (service/event.rs, not under src/). -/
inductive ProtocolEvent where
  | connected (session_context : SessionContext) (proto_id : Nat) (version : String)
  | received (session_context : SessionContext) (proto_id : Nat) (data : Bytes)
  | disconnected (proto_id : Nat) (session_context : SessionContext)
deriving DecidableEq, Repr

/-- Externally observable actions of the core: user callbacks on the
`ServiceHandle`, task spawns, and stream shutdowns, recorded in order. -/
inductive Effect where
  | handleEvent (e : ServiceEvent)
  | handleError (e : ServiceError)
  | handleProto (e : ProtocolEvent)
  | streamShutdown (stream : Nat)
  | spawnSession (id : Nat)
  | openProtoStream (name : String)
  | spawnHandshake (stream : Nat) (ty : SessionType) (address : Multiaddr)
  | spawnServiceHandle (proto_id : Nat) (hid : Nat)
  | spawnSessionHandle (id : Nat) (proto_id : Nat) (hid : Nat)
  | spawnFutureTaskManager
deriving DecidableEq, Repr

/-- `ProtocolHandle` mode of one side of a `ProtocolMeta`
(service/config.rs, not under src/): no handler, a callback handler, or
both (callback plus event). The handler itself is user code; per the spec
each instantiation builds a fresh bounded channel. -/
inductive ProtocolHandle where
  | neither
  | callback
  | both
deriving DecidableEq, Repr

/-- Whether this mode yields a handler (the source matches
`Callback(h) | Both(h)`). -/
def ProtocolHandle.hasHandle : ProtocolHandle → Bool
  | .callback => true
  | .both => true
  | .neither => false

/-- `ProtocolMeta` (service/config.rs, not under src/; fields per the
spec's data model). -/
structure ProtocolMeta where
  id : Nat
  name : String
  support_versions : List String
  service_handle : ProtocolHandle
  session_handle : ProtocolHandle
  before_send : Option (Bytes → Bytes)

/-- `ServiceConfig` (service/config.rs, not under src/): the options the
core reads, with the two yamux buffer thresholds inlined. -/
structure ServiceConfig where
  timeout : Nat
  max_frame_length : Nat
  keep_buffer : Bool
  upnp : Bool
  event : List Nat
  send_event_size : Nat
  recv_event_size : Nat

/-- `ServiceContext` (context.rs, not under src/): the slice of it the
core reads and writes (listen-address snapshot, optional key pair, the
two control-queue counters). -/
structure ServiceContext where
  listen_addrs : List Multiaddr
  key_pair : Option Nat
  quick_count : Nat
  normal_count : Nat
deriving DecidableEq, Repr

/-- `TargetProtocol` (service/config.rs, not under src/). -/
inductive TargetProtocol where
  | all
  | single (proto_id : Nat)
  | multi (proto_ids : List Nat)
deriving DecidableEq, Repr

/-- `TargetSession` (service/config.rs, not under src/). -/
inductive TargetSession where
  | all
  | single (id : Nat)
  | multi (ids : List Nat)
deriving DecidableEq, Repr

/-- `ServiceTask` (service/event.rs, not under src/; variants per the
spec's control-surface table). Future tasks are opaque. -/
inductive ServiceTask where
  | protocolMessage (target : TargetSession) (proto_id : Nat)
      (priority : Priority) (data : Bytes)
  | dial (address : Multiaddr) (target : TargetProtocol)
  | listen (address : Multiaddr)
  | disconnect (session_id : Nat)
  | futureTask
  | setProtocolNotify (proto_id : Nat) (interval : Nat) (token : Nat)
  | removeProtocolNotify (proto_id : Nat) (token : Nat)
  | setProtocolSessionNotify (session_id : Nat) (proto_id : Nat)
      (interval : Nat) (token : Nat)
  | removeProtocolSessionNotify (session_id : Nat) (proto_id : Nat) (token : Nat)
  | protocolOpen (session_id : Nat) (target : TargetProtocol)
  | protocolClose (session_id : Nat) (proto_id : Nat)
  | shutdown (quick : Bool)
deriving DecidableEq, Repr

/-- The `Service` struct (src/service.rs): the whole core state, plus the
append-only effect log `out` and the fresh-handle counter `next_hid`
(model bookkeeping for channel identity). -/
structure Service where
  protocol_configs : List (String × ProtocolMeta)
  sessions : List (Nat × SessionController)
  listens : List (Multiaddr × MultiIncoming)
  igd_client : Bool
  dial_protocols : List (Multiaddr × TargetProtocol)
  config : ServiceConfig
  state : State
  next_session : Nat
  before_sends : List (Nat × (Bytes → Bytes))
  high_write_buf : List (Nat × SessionEvent)
  write_buf : List (Nat × SessionEvent)
  read_service_buf : List (Option Nat × Nat × ServiceProtocolEvent)
  read_session_buf : List (Nat × Nat × SessionProtocolEvent)
  future_task_manager : Bool
  future_task_sender : Chan Unit
  session_service_protos : List (Nat × List Nat)
  service_proto_handles : List (Nat × HandleChan ServiceProtocolEvent)
  session_proto_handles : List ((Nat × Nat) × HandleChan SessionProtocolEvent)
  session_event_receiver : Receiver SessionEvent
  service_context : ServiceContext
  service_task_receiver : Receiver ServiceTask
  quick_task_receiver : Receiver ServiceTask
  pending_tasks : List Unit
  delay : Bool
  shutdown : Bool
  next_hid : Nat
  out : List Effect

/-- Append one observable effect to the log. -/
def emit (st : Service) (e : Effect) : Service :=
  { st with out := st.out ++ [e] }

/-- `Service::set_delay`: schedule a deferred self-wake (the timer task
itself is external; only the flag is core state). -/
def set_delay (st : Service) : Service :=
  { st with delay := true }

/-- `Service::push_back`: enqueue an outbound event into the buffer
matching its priority. -/
def push_back (st : Service) (priority : Priority) (id : Nat)
    (event : SessionEvent) : Service :=
  if priority.is_high then
    { st with high_write_buf := st.high_write_buf ++ [(id, event)] }
  else
    { st with write_buf := st.write_buf ++ [(id, event)] }

/-- `Service::distribute_to_session_process`: walk the drained events of
one priority; events for a blocked destination are re-queued in order,
`ProtocolMessage` events for a closed session are dropped, otherwise
`try_send` marks the destination blocked on a full channel. Returns the
final state and the grown blocked set. -/
def distribute_to_session_process (st : Service) (priority : Priority)
    (block_sessions : List Nat) :
    List (Nat × SessionEvent) → Service × List Nat
  | [] => (st, block_sessions)
  | (id, event) :: rest =>
    if id ∈ block_sessions then
      distribute_to_session_process (push_back st priority id event)
        priority block_sessions rest
    else
      match alookup st.sessions id with
      | none => distribute_to_session_process st priority block_sessions rest
      | some session =>
        if session.inner.closed ∧ event.isProtocolMessage then
          distribute_to_session_process st priority block_sessions rest
        else
          match session.try_send priority event with
          | (.sent, session') =>
            distribute_to_session_process
              { st with sessions := ainsert st.sessions id session' }
              priority block_sessions rest
          | (.full event', session') =>
            let st := { st with sessions := ainsert st.sessions id session' }
            let st := push_back st priority id event'
            let st := set_delay st
            distribute_to_session_process st priority
              (sinsert block_sessions id) rest
          | (.closed, session') =>
            distribute_to_session_process
              { st with sessions := ainsert st.sessions id session' }
              priority block_sessions rest

/-- The final `SessionBlocked` notification loop of
`distribute_to_session`: one error per blocked session still present. -/
def emitBlocked (st : Service) (block_sessions : List Nat) : Service :=
  block_sessions.foldl
    (fun st id =>
      match alookup st.sessions id with
      | some control =>
        emit st (.handleError (.sessionBlocked control.inner))
      | none => st)
    st

/-- `Service::distribute_to_session`: drain `high_write_buf`, then
`write_buf` only when some destination is not blocked, then emit
`SessionBlocked` once per blocked live session. (The capacity shrinking
of the source has no observable effect in the model.) -/
def distribute_to_session (st : Service) : Service :=
  if st.shutdown then st
  else
    let high := st.high_write_buf
    let (st1, b1) :=
      distribute_to_session_process { st with high_write_buf := [] } .high [] high
    let (st2, b2) :=
      if b1.length < st1.sessions.length then
        let normal := st1.write_buf
        distribute_to_session_process { st1 with write_buf := [] } .normal b1 normal
      else (st1, b1)
    emitBlocked st2 b2

/-- `Service::proto_handle_error`: a protocol handle channel is full. -/
def proto_handle_error (st : Service) (proto_id : Nat)
    (session_id : Option Nat) : Service :=
  let error :=
    match session_id with
    | some id => Error.sessionProtoHandleBlock id
    | none => Error.serviceProtoHandleBlock
  let st := set_delay st
  emit st (.handleError (.protocolHandleError proto_id error))

/-- `Service::proto_handle`, reduced to existence: the source takes the
first meta with this id that offers a handle of the requested level
(`Callback` or `Both`); the handler value itself is opaque user code. -/
def proto_handle_exists (st : Service) (session : Bool) (proto_id : Nat) : Bool :=
  st.protocol_configs.any fun p =>
    p.2.id == proto_id &&
      (if session then p.2.session_handle.hasHandle else p.2.service_handle.hasHandle)

/-- `Service::handle_open` with a service-level handle: build the bounded
handler channel, register it, spawn the handler stream. -/
def handle_open_service (st : Service) (proto_id : Nat) : Service :=
  let sender : HandleChan ServiceProtocolEvent :=
    { hid := st.next_hid, chan := Chan.empty RECEIVED_SIZE }
  let st :=
    { st with
      next_hid := st.next_hid + 1,
      service_proto_handles := ainsert st.service_proto_handles proto_id sender }
  emit st (.spawnServiceHandle proto_id sender.hid)

/-- `Service::handle_open` with a session-level handle: only when the
given session id is live, build the bounded handler channel, register it
under `(id, proto_id)`, spawn the handler stream. -/
def handle_open_session (st : Service) (proto_id : Nat) (id : Nat) : Service :=
  match alookup st.sessions id with
  | some _ =>
    let sender : HandleChan SessionProtocolEvent :=
      { hid := st.next_hid, chan := Chan.empty RECEIVED_SIZE }
    let st :=
      { st with
        next_hid := st.next_hid + 1,
        session_proto_handles := ainsert st.session_proto_handles (id, proto_id) sender }
    emit st (.spawnSessionHandle id proto_id sender.hid)
  | none => st

/-- `Service::send_message_to`: enqueue one protocol message for one
session (if live) and run a dispatch round. -/
def send_message_to (st : Service) (session_id : Nat) (proto_id : Nat)
    (priority : Priority) (data : Bytes) : Service :=
  if (alookup st.sessions session_id).isSome then
    let message_event := SessionEvent.protocolMessage session_id proto_id priority data
    distribute_to_session (push_back st priority session_id message_event)
  else st

/-- `Service::filter_broadcast`: enqueue the message for every live
session whose id is in the list, then dispatch. -/
def filter_broadcast (st : Service) (ids : List Nat) (proto_id : Nat)
    (priority : Priority) (data : Bytes) : Service :=
  let keys := st.sessions.map Prod.fst
  let st :=
    keys.foldl
      (fun st id =>
        if id ∈ ids then
          push_back st priority id (.protocolMessage id proto_id priority data)
        else st)
      st
  distribute_to_session st

/-- `Service::broadcast`: enqueue the message for every live session,
then dispatch. -/
def broadcast (st : Service) (proto_id : Nat) (priority : Priority)
    (data : Bytes) : Service :=
  let keys := st.sessions.map Prod.fst
  let st :=
    keys.foldl
      (fun st id => push_back st priority id (.protocolMessage id proto_id priority data))
      st
  distribute_to_session st

/-- `Service::protocol_close` with `Source::Internal`: notify
`Disconnected` when subscribed, remove the protocol from the session's
open set, drop the session-level handle sender. -/
def protocol_close_internal (st : Service) (session_id : Nat)
    (proto_id : Nat) : Service :=
  let st :=
    if proto_id ∈ st.config.event then
      match alookup st.sessions session_id with
      | some session_control =>
        emit st (.handleProto (.disconnected proto_id session_control.inner))
      | none => st
    else st
  let st :=
    match alookup st.session_service_protos session_id with
    | some infos =>
      { st with
        session_service_protos :=
          ainsert st.session_service_protos session_id (serase infos proto_id) }
    | none => st
  { st with
    session_proto_handles := aerase st.session_proto_handles (session_id, proto_id) }

/-- `Service::protocol_close` with `Source::External`: enqueue a
`ProtocolClose` outbound event and dispatch. -/
def protocol_close_external (st : Service) (session_id : Nat)
    (proto_id : Nat) : Service :=
  let st :=
    { st with
      write_buf :=
        st.write_buf ++ [(session_id, .protocolClose session_id proto_id)] }
  distribute_to_session st

/-- `Service::protocol_close` (src/service.rs). -/
def protocol_close (st : Service) (session_id : Nat) (proto_id : Nat)
    (source : Source) : Service :=
  match source with
  | .external => protocol_close_external st session_id proto_id
  | .internal => protocol_close_internal st session_id proto_id

/-- `Service::session_close` with `Source::Internal`: drop the session's
open-protocol set, purge the write buffers of its entries (and the read
buffers unless `keep_buffer`), close each open protocol, remove the
controller and notify `SessionClose`. -/
def session_close_internal (st : Service) (id : Nat) : Service :=
  let close_proto_ids := (alookup st.session_service_protos id).getD []
  let st := { st with session_service_protos := aerase st.session_service_protos id }
  let st :=
    { st with
      write_buf := st.write_buf.filter (fun p => p.1 ≠ id),
      high_write_buf := st.high_write_buf.filter (fun p => p.1 ≠ id) }
  let st := set_delay st
  let st :=
    if !st.config.keep_buffer then
      { st with
        read_session_buf := st.read_session_buf.filter (fun p => p.1 ≠ id),
        read_service_buf := st.read_service_buf.filter (fun p => p.1 ≠ some id) }
    else st
  let st :=
    close_proto_ids.foldl (fun st proto_id => protocol_close_internal st id proto_id) st
  match alookup st.sessions id with
  | some session_control =>
    let st := { st with sessions := aerase st.sessions id }
    emit st (.handleEvent (.sessionClose session_control.inner))
  | none => { st with sessions := aerase st.sessions id }

/-- `Service::session_close` with `Source::External`: enqueue a
`SessionClose` outbound event and dispatch; core maps stay untouched. -/
def session_close_external (st : Service) (id : Nat) : Service :=
  let st := { st with write_buf := st.write_buf ++ [(id, .sessionClose id)] }
  distribute_to_session st

/-- `Service::session_close` (src/service.rs). -/
def session_close (st : Service) (id : Nat) (source : Source) : Service :=
  match source with
  | .external => session_close_external st id
  | .internal => session_close_internal st id

/-- `Service::protocol_open` with `Source::External`: under the three
guards (session live, protocol not open, no handle entry), instantiate a
session-level handler when configured — NOTE the source passes
`Some(self.next_session)` here, not the target session id — then enqueue
a `ProtocolOpen` event carrying whatever handle sender is registered
under `(id, proto_id)`, and dispatch. -/
def protocol_open_external (st : Service) (id : Nat) (proto_id : Nat)
    (version : String) : Service :=
  if (alookup st.sessions id).isSome
      && !((alookup st.session_service_protos id).getD []).contains proto_id
      && (alookup st.session_proto_handles (id, proto_id)).isNone then
    let st :=
      if proto_handle_exists st true proto_id then
        handle_open_session st proto_id st.next_session
      else st
    let st :=
      { st with
        write_buf :=
          st.write_buf ++
            [(id,
              .protocolOpen id proto_id version
                ((alookup st.session_proto_handles (id, proto_id)).map HandleChan.hid))] }
    distribute_to_session st
  else st

/-- `Service::protocol_open` with `Source::Internal`: record the protocol
as open on the session and notify `Connected` when subscribed. -/
def protocol_open_internal (st : Service) (id : Nat) (proto_id : Nat)
    (version : String) : Service :=
  let st :=
    { st with
      session_service_protos :=
        ainsert st.session_service_protos id
          (sinsert ((alookup st.session_service_protos id).getD []) proto_id) }
  if proto_id ∈ st.config.event then
    match alookup st.sessions id with
    | some session_control =>
      emit st (.handleProto (.connected session_control.inner proto_id version))
    | none => st
  else st

/-- `Service::protocol_open` (src/service.rs). -/
def protocol_open (st : Service) (id : Nat) (proto_id : Nat)
    (version : String) (source : Source) : Service :=
  match source with
  | .external => protocol_open_external st id proto_id version
  | .internal => protocol_open_internal st id proto_id version

/-- `Service::protocol_message`: notify `Received` when the protocol is
subscribed and the session is live. -/
def protocol_message (st : Service) (session_id : Nat) (proto_id : Nat)
    (data : Bytes) : Service :=
  if proto_id ∈ st.config.event then
    match alookup st.sessions session_id with
    | some session_control =>
      emit st (.handleProto (.received session_control.inner proto_id data))
    | none => st
  else st

/-- The `ServiceTask::Shutdown` branch of `handle_service_task`: enter
pre-shutdown, close every listener (a `Vec` popped from the back), clear
the pending tasks; with `quick`, also close the three inbound receivers,
clear `write_buf` and both read buffers and both handler maps, then close
every session internally; without `quick`, close every session
externally. -/
def shutdownTask (st : Service) (quick : Bool) : Service :=
  let st := { st with state := st.state.pre_shutdown }
  let st :=
    st.listens.reverse.foldl
      (fun st p => emit st (.handleEvent (.listenClose p.1))) st
  let st := { st with listens := [] }
  let st := { st with pending_tasks := [] }
  let sessionIds := st.sessions.map Prod.fst
  if quick then
    let st :=
      { st with
        quick_task_receiver := st.quick_task_receiver.close,
        service_task_receiver := st.service_task_receiver.close,
        session_event_receiver := st.session_event_receiver.close,
        write_buf := [],
        read_session_buf := [],
        read_service_buf := [],
        service_proto_handles := [],
        session_proto_handles := [] }
    sessionIds.foldl (fun st i => session_close_internal st i) st
  else
    sessionIds.foldl (fun st i => session_close_external st i) st

/-- The `read_service_buf` loop of `distribute_to_user_level`: events for
a blocked protocol are re-queued in order; `try_send` to the handler
marks the protocol blocked on full and raises the error flag on a closed
channel. Returns the state and the error flag. -/
def user_service_process (st : Service) (block_handles : List Nat) (error : Bool) :
    List (Option Nat × Nat × ServiceProtocolEvent) → Service × Bool
  | [] => (st, error)
  | (session_id, proto_id, event) :: rest =>
    if proto_id ∈ block_handles then
      user_service_process
        { st with read_service_buf := st.read_service_buf ++ [(session_id, proto_id, event)] }
        block_handles error rest
    else
      match alookup st.service_proto_handles proto_id with
      | none => user_service_process st block_handles error rest
      | some sender =>
        let (res, ch) := sender.chan.trySend event
        let st :=
          { st with
            service_proto_handles :=
              ainsert st.service_proto_handles proto_id { sender with chan := ch } }
        match res with
        | .sent => user_service_process st block_handles error rest
        | .full event' =>
          let st :=
            { st with
              read_service_buf := st.read_service_buf ++ [(session_id, proto_id, event')] }
          let st := proto_handle_error st proto_id none
          user_service_process st (sinsert block_handles proto_id) error rest
        | .closed =>
          let st :=
            emit st
              (.handleError (.protocolHandleError proto_id .serviceProtoHandleAbnormallyClosed))
          user_service_process st block_handles true rest

/-- The `read_session_buf` loop of `distribute_to_user_level` (note: the
source keeps no blocked set here). -/
def user_session_process (st : Service) (error : Bool) :
    List (Nat × Nat × SessionProtocolEvent) → Service × Bool
  | [] => (st, error)
  | (session_id, proto_id, event) :: rest =>
    match alookup st.session_proto_handles (session_id, proto_id) with
    | none => user_session_process st error rest
    | some sender =>
      let (res, ch) := sender.chan.trySend event
      let st :=
        { st with
          session_proto_handles :=
            ainsert st.session_proto_handles (session_id, proto_id)
              { sender with chan := ch } }
      match res with
      | .sent => user_session_process st error rest
      | .full event' =>
        let st :=
          { st with
            read_session_buf := st.read_session_buf ++ [(session_id, proto_id, event')] }
        let st := proto_handle_error st proto_id (some session_id)
        user_session_process st error rest
      | .closed =>
        let st :=
          emit st
            (.handleError
              (.protocolHandleError proto_id (.sessionProtoHandleAbnormallyClosed session_id)))
        user_session_process st true rest

/-- First phase of `distribute_to_user_level`: close every session whose
shared `closed` flag is set. -/
def dtul_closed_phase (st : Service) : Service :=
  let closed_sessions :=
    (st.sessions.filter (fun p => p.2.inner.closed)).map Prod.fst
  closed_sessions.foldl (fun st id => session_close_internal st id) st

/-- Drain `read_service_buf` into the service-level handlers. -/
def dtul_service_phase (st : Service) : Service × Bool :=
  user_service_process { st with read_service_buf := [] } [] false st.read_service_buf

/-- Drain `read_session_buf` into the session-level handlers. -/
def dtul_session_phase (st : Service) (error1 : Bool) : Service × Bool :=
  user_session_process { st with read_session_buf := [] } error1 st.read_session_buf

/-- `Service::distribute_to_user_level`: first close every session whose
shared `closed` flag is set, then drain both read buffers to the protocol
handlers; a closed handler channel triggers a graceful shutdown. -/
def distribute_to_user_level (st : Service) : Service :=
  if st.shutdown then st
  else
    let st := dtul_closed_phase st
    let r1 := dtul_service_phase st
    let r2 := dtul_session_phase r1.1 r1.2
    if r2.2 then shutdownTask r2.1 false else r2.1

/-- `Service::update_listens`: when the listener set changed size, push
the new address list to the context and broadcast an `Update` event to
every service-level and session-level handler, then dispatch. -/
def update_listens (st : Service) : Service :=
  if st.listens.length = st.service_context.listen_addrs.length then st
  else
    let new_listens := st.listens.map Prod.fst
    let st :=
      { st with
        service_context := { st.service_context with listen_addrs := new_listens } }
    let st :=
      st.service_proto_handles.foldl
        (fun st p =>
          { st with
            read_service_buf :=
              st.read_service_buf ++ [(none, p.1, .update new_listens)] })
        st
    let st :=
      st.session_proto_handles.foldl
        (fun st p =>
          { st with
            read_session_buf :=
              st.read_session_buf ++ [(p.1.1, p.1.2, .update new_listens)] })
        st
    distribute_to_user_level st

/-- The `open_proto_stream` requests issued for an outbound session per
its recorded `TargetProtocol` (external effects on the session task). -/
def open_proto_streams (st : Service) (target : TargetProtocol) : Service :=
  match target with
  | .all =>
    st.protocol_configs.foldl (fun st p => emit st (.openProtoStream p.1)) st
  | .single proto_id =>
    match st.protocol_configs.find? (fun p => p.2.id == proto_id) with
    | some p => emit st (.openProtoStream p.2.name)
    | none => st
  | .multi proto_ids =>
    (st.protocol_configs.filter (fun p => p.2.id ∈ proto_ids)).foldl
      (fun st p => emit st (.openProtoStream p.2.name)) st

/-- The tail of `Service::session_open` after the duplicate and peer-id
checks: allocate the context and controller under the (already
incremented) `next_session`, insert it, open every configured
session-level protocol handle, spawn the `Session` task, request the
outbound protocol streams, and notify `SessionOpen`. -/
def session_open_rest (st : Service) (remote_pubkey : Option PublicKey)
    (address : Multiaddr) (ty : SessionType) (target : TargetProtocol) : Service :=
  let session_context : SessionContext :=
    { id := st.next_session, address := address, ty := ty,
      remote_pubkey := remote_pubkey, closed := false }
  let session_control : SessionController :=
    { quick := Chan.empty SEND_SIZE, normal := Chan.empty SEND_SIZE,
      inner := session_context }
  let st := { st with sessions := ainsert st.sessions session_context.id session_control }
  let proto_ids := st.protocol_configs.map (fun p => p.2.id)
  let st :=
    proto_ids.foldl
      (fun st proto_id =>
        if proto_handle_exists st true proto_id then
          handle_open_session st proto_id st.next_session
        else st)
      st
  let st := emit st (.spawnSession session_context.id)
  let st := if ty.is_outbound then open_proto_streams st target else st
  emit st (.handleEvent (.sessionOpen session_context))

/-- `Service::session_open` (src/service.rs): decrement the pending
counter for outbound opens, take the recorded dial target, reject a
duplicate public key with `RepeatedConnection` (shutting the new stream
down), reject a mismatched explicit peer-id with `PeerIdNotMatch`, append
the derived peer-id when absent, then open the session. -/
def session_open (st : Service) (socket : Nat) (remote_pubkey : Option PublicKey)
    (address : Multiaddr) (ty : SessionType) : Service :=
  let st := if ty.is_outbound then { st with state := st.state.decrease } else st
  let target := (alookup st.dial_protocols address).getD .all
  let st := { st with dial_protocols := aerase st.dial_protocols address }
  match remote_pubkey with
  | some key =>
    match st.sessions.find? (fun p => p.2.inner.remote_pubkey == some key) with
    | some p =>
      let st := emit st (.streamShutdown socket)
      if ty.is_outbound then
        emit st (.handleError (.dialerError address (.repeatedConnection p.2.inner.id)))
      else
        emit st (.handleError (.listenError address (.repeatedConnection p.2.inner.id)))
    | none =>
      match extract_peer_id address with
      | some pid =>
        if peer_id key ≠ pid then
          emit st (.handleError (.dialerError address .peerIdNotMatch))
        else
          session_open_rest { st with next_session := st.next_session + 1 }
            remote_pubkey address ty target
      | none =>
        let address := address ++ [AddrProto.p2p (peer_id key)]
        session_open_rest { st with next_session := st.next_session + 1 }
          remote_pubkey address ty target
  | none =>
    session_open_rest { st with next_session := st.next_session + 1 }
      remote_pubkey address ty target

/-- `Service::handshake`: with a configured key pair the handshake runs
as a background future (external; its outcome returns later as a
`HandshakeSuccess`/`HandshakeFail` session event); without one the
session opens unencrypted at once. -/
def handshake (st : Service) (socket : Nat) (ty : SessionType)
    (remote_address : Multiaddr) : Service :=
  match st.service_context.key_pair with
  | some _ => emit st (.spawnHandshake socket ty remote_address)
  | none => session_open st socket none remote_address ty

/-- The per-listener loop of `Service::listen_poll`: poll each listener
once; new connections start an inbound handshake, an ended or failed
listener is removed with a `ListenClose` (and `ListenError`) notification
and marks the set updated. -/
def listen_poll_go (st : Service) (kept : List (Multiaddr × MultiIncoming))
    (update : Bool) :
    List (Multiaddr × MultiIncoming) → Service × List (Multiaddr × MultiIncoming) × Bool
  | [] => (st, kept, update)
  | (address, incoming) :: rest =>
    match incoming with
    | [] => listen_poll_go st (kept ++ [(address, [])]) update rest
    | .conn remote_address socket :: tl =>
      let st := handshake st socket .inbound remote_address
      listen_poll_go st (kept ++ [(address, tl)]) update rest
    | .finished :: _ =>
      let st := emit st (.handleEvent (.listenClose address))
      listen_poll_go st kept true rest
    | .notReady :: tl => listen_poll_go st (kept ++ [(address, tl)]) update rest
    | .ioErr :: _ =>
      let st := emit st (.handleError (.listenError address .ioError))
      let st := emit st (.handleEvent (.listenClose address))
      listen_poll_go st kept true rest

/-- `Service::listen_poll`: poll every listener once, then refresh the
address snapshot when the set changed (or was never recorded). -/
def listen_poll (st : Service) : Service :=
  let ls := st.listens
  let (st, kept, update) := listen_poll_go { st with listens := [] } [] false ls
  let st := { st with listens := kept }
  if update ∨ st.service_context.listen_addrs.isEmpty then update_listens st else st

/-- `Service::handle_session_event` (src/service.rs): dispatch one event
received from a session task through the lifecycle FSM. -/
def handle_session_event (st : Service) (event : SessionEvent) : Service :=
  match event with
  | .sessionClose id => session_close_internal st id
  | .handshakeSuccess handle public_key address ty =>
    session_open st handle (some public_key) address ty
  | .handshakeFail ty error address =>
    if ty.is_outbound then
      let st :=
        { st with
          state := st.state.decrease,
          dial_protocols := aerase st.dial_protocols address }
      emit st (.handleError (.dialerError address error))
    else st
  | .protocolMessage id proto_id _ data => protocol_message st id proto_id data
  | .protocolOpen id proto_id version _ => protocol_open_internal st id proto_id version
  | .protocolClose id proto_id => protocol_close_internal st id proto_id
  | .protocolSelectError id proto_name =>
    match alookup st.sessions id with
    | some session_control =>
      emit st (.handleError (.protocolSelectError proto_name session_control.inner))
    | none => st
  | .protocolError id proto_id error =>
    emit st (.handleError (.protocolError id proto_id error))
  | .dialError address error =>
    let st :=
      { st with
        state := st.state.decrease,
        dial_protocols := aerase st.dial_protocols address }
    emit st (.handleError (.dialerError address error))
  | .listenError address error =>
    let st := { st with state := st.state.decrease }
    emit st (.handleError (.listenError address error))
  | .sessionTimeout id =>
    match alookup st.sessions id with
    | some session_control =>
      emit st (.handleError (.sessionTimeout session_control.inner))
    | none => st
  | .muxerError id error =>
    match alookup st.sessions id with
    | some session_control =>
      emit st (.handleError (.muxerError session_control.inner error))
    | none => st
  | .listenStart listen_address incoming =>
    let st := emit st (.handleEvent (.listenStarted listen_address))
    let st := { st with listens := st.listens ++ [(listen_address, incoming)] }
    let st := { st with state := st.state.decrease }
    let st := update_listens st
    listen_poll st
  | .dialStart remote_address stream => handshake st stream .outbound remote_address

/-- `Service::listen`: start a listener (the transport resolver always
succeeds in the model); the async resolver task goes to the pending
deque and the pending counter grows. -/
def listen (st : Service) (_address : Multiaddr) : Service :=
  let st := { st with pending_tasks := st.pending_tasks ++ [()] }
  { st with state := st.state.increase }

/-- `Service::dial_inner`: record the dial target, queue the dial future,
grow the pending counter (the transport always succeeds in the model). -/
def dial_inner (st : Service) (address : Multiaddr) (target : TargetProtocol) : Service :=
  let st := { st with dial_protocols := ainsert st.dial_protocols address target }
  let st := { st with pending_tasks := st.pending_tasks ++ [()] }
  { st with state := st.state.increase }

/-- The while-loop of `Service::send_pending_task`, recursing over the
popped pending tasks: forward them to the bounded future-task channel
until it reports full (re-queue at the front and delay) or the list runs
out; a disconnected channel drops the task. -/
def send_pending_go (st : Service) : List Unit → Service
  | [] => { st with pending_tasks := [] }
  | t :: rest =>
    let (res, ch) := st.future_task_sender.trySend t
    match res with
    | .full _ =>
      set_delay
        { st with future_task_sender := ch, pending_tasks := t :: rest }
    | .sent => send_pending_go { st with future_task_sender := ch } rest
    | .closed => send_pending_go { st with future_task_sender := ch } rest

/-- `Service::send_pending_task`. -/
def send_pending_task (st : Service) : Service :=
  send_pending_go st st.pending_tasks

/-- `Service::send_future_task`: wrap the (opaque) task and queue it. -/
def send_future_task (st : Service) : Service :=
  let st := { st with pending_tasks := st.pending_tasks ++ [()] }
  send_pending_task st

/-- `Service::notify_queue`: install the periodic queue-pressure interval
as a future task (the interval itself is external). -/
def notify_queue (st : Service) : Service :=
  send_future_task st

/-- `Service::init_proto_handles`: take every meta's `before_send`
transform, open each configured service-level handle, and record the
transforms. -/
def init_proto_handles (st : Service) : Service :=
  let ids := st.protocol_configs.map (fun p => (p.2.id, p.2.before_send))
  let st :=
    { st with
      protocol_configs :=
        st.protocol_configs.map (fun p => (p.1, { p.2 with before_send := none })) }
  ids.foldl
    (fun st idb =>
      let st :=
        if proto_handle_exists st false idb.1 then handle_open_service st idb.1 else st
      match idb.2 with
      | some f => { st with before_sends := ainsert st.before_sends idb.1 f }
      | none => st)
    st

/-- `Service::handle_service_task` (src/service.rs): dispatch one task
sent by the user over a control channel. -/
def handle_service_task (st : Service) (event : ServiceTask) : Service :=
  match event with
  | .protocolMessage target proto_id priority data =>
    let data :=
      match alookup st.before_sends proto_id with
      | some f => f data
      | none => data
    match target with
    | .single id => send_message_to st id proto_id priority data
    | .multi ids => filter_broadcast st ids proto_id priority data
    | .all => broadcast st proto_id priority data
  | .dial address target =>
    if (alookup st.dial_protocols address).isSome then st
    else dial_inner st address target
  | .listen address =>
    if st.listens.any (fun p => p.1 == address) then st else listen st address
  | .disconnect session_id => session_close_external st session_id
  | .futureTask => send_future_task st
  | .setProtocolNotify proto_id interval token =>
    if (alookup st.service_proto_handles proto_id).isSome then
      distribute_to_user_level
        { st with
          read_service_buf :=
            st.read_service_buf ++ [(none, proto_id, .setNotify interval token)] }
    else st
  | .removeProtocolNotify proto_id token =>
    if (alookup st.service_proto_handles proto_id).isSome then
      distribute_to_user_level
        { st with
          read_service_buf :=
            st.read_service_buf ++ [(none, proto_id, .removeNotify token)] }
    else st
  | .setProtocolSessionNotify session_id proto_id interval token =>
    if (alookup st.session_proto_handles (session_id, proto_id)).isSome then
      distribute_to_user_level
        { st with
          read_session_buf :=
            st.read_session_buf ++ [(session_id, proto_id, .setNotify interval token)] }
    else st
  | .removeProtocolSessionNotify session_id proto_id token =>
    if (alookup st.session_proto_handles (session_id, proto_id)).isSome then
      { st with
        read_session_buf :=
          st.read_session_buf ++ [(session_id, proto_id, .removeNotify token)] }
    else st
  | .protocolOpen session_id target =>
    match target with
    | .all =>
      let ids := st.protocol_configs.map (fun p => p.2.id)
      ids.foldl (fun st i => protocol_open_external st session_id i "") st
    | .single i => protocol_open_external st session_id i ""
    | .multi ids =>
      ids.foldl (fun st i => protocol_open_external st session_id i "") st
  | .protocolClose session_id proto_id => protocol_close_external st session_id proto_id
  | .shutdown quick => shutdownTask st quick

/-- Pop the next quick task, adjusting the pressure counter. -/
def poll_quick_task (st : Service) : Option ServiceTask × Service :=
  let (t, r) := st.quick_task_receiver.pollNext
  match t with
  | some task =>
    (some task,
      { st with
        quick_task_receiver := r,
        service_context :=
          { st.service_context with quick_count := st.service_context.quick_count - 1 } })
  | none => (none, st)

/-- Pop the next normal task, adjusting the pressure counter. -/
def poll_normal_task (st : Service) : Option ServiceTask × Service :=
  let (t, r) := st.service_task_receiver.pollNext
  match t with
  | some task =>
    (some task,
      { st with
        service_task_receiver := r,
        service_context :=
          { st.service_context with normal_count := st.service_context.normal_count - 1 } })
  | none => (none, st)

/-- The bounded loop of `Service::user_task_poll`: up to the fuel many
tasks, stopping early when both write buffers exceed the yamux send
threshold; quick tasks drain preferentially, normal tasks only while the
normal write buffer has headroom. Returns whether the loop finished by
running dry. -/
def user_task_go : Nat → Service → Service × Bool
  | 0, st => (st, false)
  | n + 1, st =>
    if st.config.send_event_size < st.write_buf.length
        ∧ st.config.send_event_size < st.high_write_buf.length then
      (st, false)
    else
      let (tq, st) := poll_quick_task st
      let (t, st) :=
        match tq with
        | some t => (some t, st)
        | none =>
          if st.write_buf.length ≤ st.config.send_event_size then poll_normal_task st
          else (none, st)
      match t with
      | some task => user_task_go n (handle_service_task st task)
      | none => (st, true)

/-- `Service::user_task_poll`: run up to 512 user tasks; delay when the
loop stopped with work (potentially) remaining. -/
def user_task_poll (st : Service) : Service :=
  let (st, finished) := user_task_go 512 st
  if finished then st else set_delay st

/-- The bounded loop of `Service::session_poll`: up to the fuel many
session events, stopping early when either read buffer exceeds the yamux
receive threshold. -/
def session_go : Nat → Service → Service × Bool
  | 0, st => (st, false)
  | n + 1, st =>
    if st.config.recv_event_size < st.read_service_buf.length
        ∨ st.config.recv_event_size < st.read_session_buf.length then
      (st, false)
    else
      let (ev, r) := st.session_event_receiver.pollNext
      match ev with
      | some event => session_go n (handle_session_event { st with session_event_receiver := r } event)
      | none => (st, true)

/-- `Service::session_poll`: ingest up to 64 session events; delay when
the loop stopped with work (potentially) remaining. -/
def session_poll (st : Service) : Service :=
  let (st, finished) := session_go 64 st
  if finished then st else set_delay st

/-- The first-turn initialisation of `poll`: spawn the future-task
manager, start the queue-pressure interval, install the service-level
protocol handles and `before_send` transforms. -/
def first_turn_init (st : Service) : Service :=
  if st.future_task_manager then
    let st := { st with future_task_manager := false }
    let st := emit st .spawnFutureTaskManager
    let st := notify_queue st
    init_proto_handles st
  else st

/-- The work pipeline of one `poll` turn, between the two drain checks
(steps 2-7 of the spec's event-loop order). -/
def poll_work (st : Service) : Service :=
  let st := first_turn_init st
  let st :=
    if !st.write_buf.isEmpty ∨ !st.high_write_buf.isEmpty then
      distribute_to_session st
    else st
  let st :=
    if !st.read_service_buf.isEmpty ∨ !st.read_session_buf.isEmpty then
      distribute_to_user_level st
    else st
  let st := listen_poll st
  let st := session_poll st
  let st := user_task_poll st
  send_pending_task st

/-- The drain condition of `poll`: no listeners, shut-down state, no
sessions, no pending tasks. -/
def drain_cond (st : Service) : Bool :=
  st.listens.isEmpty && st.state.is_shutdown && st.sessions.isEmpty
    && st.pending_tasks.isEmpty

/-- Result of one `Stream::poll` call on the service. -/
inductive PollResult where
  | done
  | notReady
deriving DecidableEq, Repr

/-- `<Service as Stream>::poll` (src/service.rs): drain check at the
head, the work pipeline, drain check at the tail; on either drain the
shutdown flag is stored and the stream ends. -/
def poll (st : Service) : Service × PollResult :=
  if drain_cond st then ({ st with shutdown := true }, .done)
  else
    let st := poll_work st
    if drain_cond st then ({ st with shutdown := true }, .done)
    else (st, .notReady)

/-! ### Library lemmas about the map and set models -/

theorem alookup_ainsert_self [DecidableEq κ] (l : List (κ × α)) (k : κ) (v : α) :
    alookup (ainsert l k v) k = some v := by
  induction l with
  | nil => simp [ainsert, alookup]
  | cons p rest ih =>
    obtain ⟨a, b⟩ := p
    by_cases h : a = k
    · simp [ainsert, h, alookup]
    · simp [ainsert, h, alookup, ih]

theorem alookup_ainsert_ne [DecidableEq κ] (l : List (κ × α)) (k k' : κ) (v : α)
    (h : k' ≠ k) : alookup (ainsert l k v) k' = alookup l k' := by
  have hk : ¬ k = k' := fun hh => h hh.symm
  induction l with
  | nil => simp [ainsert, alookup, hk]
  | cons p rest ih =>
    obtain ⟨a, b⟩ := p
    simp only [ainsert]
    by_cases ha : a = k
    · subst ha
      simp [alookup, hk]
    · simp only [if_neg ha]
      by_cases ha' : a = k'
      · subst ha'
        simp [alookup]
      · simp [alookup, ha', ih]

theorem alookup_aerase_self [DecidableEq κ] (l : List (κ × α)) (k : κ) :
    alookup (aerase l k) k = none := by
  induction l with
  | nil => simp [aerase, alookup]
  | cons p rest ih =>
    obtain ⟨a, b⟩ := p
    by_cases h : a = k
    · simpa [aerase, h, alookup] using ih
    · simpa [aerase, List.filter, h, alookup] using ih

theorem alookup_aerase_ne [DecidableEq κ] (l : List (κ × α)) (k k' : κ)
    (h : k' ≠ k) : alookup (aerase l k) k' = alookup l k' := by
  induction l with
  | nil => simp [aerase, alookup]
  | cons p rest ih =>
    obtain ⟨a, b⟩ := p
    by_cases ha : a = k
    · subst ha
      have : ¬ a = k' := fun hh => h hh.symm
      simpa [aerase, alookup, this] using ih
    · by_cases ha' : a = k'
      · subst ha'
        simp [aerase, List.filter, alookup, h]
      · simpa [aerase, List.filter, ha, alookup, ha'] using ih

theorem alookup_aerase_none [DecidableEq κ] (l : List (κ × α)) (k k' : κ)
    (h : alookup l k = none) : alookup (aerase l k') k = none := by
  by_cases hk : k = k'
  · subst hk; exact alookup_aerase_self l k
  · rw [alookup_aerase_ne l k' k hk]; exact h

theorem alookup_ainsert_none [DecidableEq κ] (l : List (κ × α)) (k k' : κ) (v : α)
    (h : alookup l k = none) (hne : k ≠ k') :
    alookup (ainsert l k' v) k = none := by
  rw [alookup_ainsert_ne l k' k v hne]; exact h

theorem alookup_mem_keys [DecidableEq κ] (l : List (κ × α)) (k : κ) (v : α)
    (h : alookup l k = some v) : k ∈ l.map Prod.fst := by
  induction l with
  | nil => simp [alookup] at h
  | cons p rest ih =>
    obtain ⟨a, b⟩ := p
    by_cases ha : a = k
    · simp [ha]
    · simp only [alookup, ha, if_false] at h
      simp [ih h]

theorem map_ainsert_of_lookup [DecidableEq κ] {β : Type _} (f : α → β)
    (l : List (κ × α)) (k : κ) (v v0 : α)
    (h : alookup l k = some v0) (hf : f v = f v0) :
    (ainsert l k v).map (fun p => (p.1, f p.2)) = l.map (fun p => (p.1, f p.2)) := by
  induction l with
  | nil => simp [alookup] at h
  | cons p rest ih =>
    obtain ⟨a, b⟩ := p
    by_cases ha : a = k
    · subst ha
      simp only [alookup, if_true, eq_self_iff_true] at h
      rw [Option.some_inj] at h
      subst h
      simp [ainsert, hf]
    · simp only [alookup, ha, if_false] at h
      simp [ainsert, ha, ih h]

theorem mem_sinsert_self [DecidableEq α] (l : List α) (a : α) : a ∈ sinsert l a := by
  by_cases h : a ∈ l <;> simp [sinsert, h]

theorem mem_sinsert_of_mem [DecidableEq α] (l : List α) (a b : α) (h : b ∈ l) :
    b ∈ sinsert l a := by
  by_cases ha : a ∈ l <;> simp [sinsert, ha, h]

theorem sinsert_nodup [DecidableEq α] (l : List α) (a : α) (h : l.Nodup) :
    (sinsert l a).Nodup := by
  by_cases ha : a ∈ l
  · simpa [sinsert, ha]
  · simpa [sinsert, ha, List.nodup_append] using h

theorem mem_of_mem_sinsert [DecidableEq α] (l : List α) (a b : α)
    (h : b ∈ sinsert l a) : b ∈ l ∨ b = a := by
  by_cases ha : a ∈ l
  · simp [sinsert, ha] at h; exact Or.inl h
  · simp [sinsert, ha] at h
    rcases h with h | h
    · exact Or.inl h
    · exact Or.inr h

/-- Generic preservation of a predicate through a left fold. -/
theorem foldl_pres {σ α : Type _} (P : σ → Prop) (f : σ → α → σ)
    (h : ∀ s a, P s → P (f s a)) :
    ∀ (l : List α) (s : σ), P s → P (l.foldl f s) := by
  intro l
  induction l with
  | nil => intro s hs; simpa using hs
  | cons a rest ih =>
    intro s hs
    simpa using ih (f s a) (h s a hs)

/-- Generic preservation of a projection through a left fold. -/
theorem foldl_proj {σ α β : Type _} (g : σ → β) (f : σ → α → σ)
    (h : ∀ s a, g (f s a) = g s) :
    ∀ (l : List α) (s : σ), g (l.foldl f s) = g s := by
  intro l
  induction l with
  | nil => intro s; simp
  | cons a rest ih =>
    intro s
    simpa [h s a] using ih (f s a)

/-! ### Characterisations of the outbound dispatch -/

theorem push_back_eq (st : Service) (pr : Priority) (id : Nat) (ev : SessionEvent) :
    ∃ hw wb, push_back st pr id ev = { st with high_write_buf := hw, write_buf := wb } := by
  unfold push_back
  split
  · exact ⟨_, _, rfl⟩
  · exact ⟨_, _, rfl⟩

theorem try_send_inner (c : SessionController) (pr : Priority) (ev : SessionEvent) :
    (c.try_send pr ev).2.inner = c.inner := by
  unfold SessionController.try_send Chan.trySend
  split <;> (split <;> (try split) <;> rfl)

/-- The buffer `push_back` appends to, by priority. -/
def bufOf (pr : Priority) (st : Service) : List (Nat × SessionEvent) :=
  if pr.is_high then st.high_write_buf else st.write_buf

/-- The buffer of the other priority. -/
def otherBufOf (pr : Priority) (st : Service) : List (Nat × SessionEvent) :=
  if pr.is_high then st.write_buf else st.high_write_buf

theorem push_back_bufOf (st : Service) (pr : Priority) (id : Nat) (ev : SessionEvent) :
    bufOf pr (push_back st pr id ev) = bufOf pr st ++ [(id, ev)] := by
  cases pr <;> simp [push_back, bufOf, Priority.is_high]

theorem push_back_otherBufOf (st : Service) (pr : Priority) (id : Nat) (ev : SessionEvent) :
    otherBufOf pr (push_back st pr id ev) = otherBufOf pr st := by
  cases pr <;> simp [push_back, otherBufOf, Priority.is_high]

/-- `distribute_to_session_process` only ever touches the two write
buffers, the session channels (never a context), and the delay flag. -/
theorem dp_eq (data : List (Nat × SessionEvent)) :
    ∀ (st : Service) (pr : Priority) (b : List Nat),
    ∃ hw wb sess del,
      (distribute_to_session_process st pr b data).1 =
        { st with high_write_buf := hw, write_buf := wb, sessions := sess, delay := del } ∧
      sess.map (fun p => (p.1, p.2.inner)) = st.sessions.map (fun p => (p.1, p.2.inner)) := by
  induction data with
  | nil =>
    intro st pr b
    exact ⟨st.high_write_buf, st.write_buf, st.sessions, st.delay, rfl, rfl⟩
  | cons hd tl ih =>
    intro st pr b
    obtain ⟨id, event⟩ := hd
    simp only [distribute_to_session_process]
    by_cases hb : id ∈ b
    · simp only [if_pos hb]
      obtain ⟨hw0, wb0, hpb⟩ := push_back_eq st pr id event
      rw [hpb]
      obtain ⟨hw, wb, sess, del, h1, h2⟩ :=
        ih { st with high_write_buf := hw0, write_buf := wb0 } pr b
      exact ⟨hw, wb, sess, del, h1, h2⟩
    · simp only [if_neg hb]
      cases hlk : alookup st.sessions id with
      | none =>
        simp only [hlk]
        exact ih st pr b
      | some session =>
        simp only [hlk]
        by_cases hcl : session.inner.closed ∧ event.isProtocolMessage
        · simp only [if_pos hcl]
          exact ih st pr b
        · simp only [if_neg hcl]
          rcases hts : session.try_send pr event with ⟨res, session'⟩
          have hinner : session'.inner = session.inner := by
            have := try_send_inner session pr event
            rw [hts] at this
            exact this
          have hsessmap :
              (ainsert st.sessions id session').map (fun p => (p.1, p.2.inner)) =
                st.sessions.map (fun p => (p.1, p.2.inner)) :=
            map_ainsert_of_lookup SessionController.inner st.sessions id session' session
              hlk hinner
          cases res with
          | sent =>
            obtain ⟨hw, wb, sess, del, h1, h2⟩ :=
              ih { st with sessions := ainsert st.sessions id session' } pr b
            exact ⟨hw, wb, sess, del, h1, h2.trans hsessmap⟩
          | full event' =>
            dsimp only
            obtain ⟨hw0, wb0, hpb⟩ :=
              push_back_eq { st with sessions := ainsert st.sessions id session' }
                pr id event'
            rw [hpb]
            obtain ⟨hw, wb, sess, del, h1, h2⟩ :=
              ih (set_delay
                { { st with sessions := ainsert st.sessions id session' } with
                    high_write_buf := hw0, write_buf := wb0 }) pr (sinsert b id)
            exact ⟨hw, wb, sess, del, h1, h2.trans hsessmap⟩
          | closed =>
            obtain ⟨hw, wb, sess, del, h1, h2⟩ :=
              ih { st with sessions := ainsert st.sessions id session' } pr b
            exact ⟨hw, wb, sess, del, h1, h2.trans hsessmap⟩

theorem dp_out (data : List (Nat × SessionEvent)) (st : Service) (pr : Priority)
    (b : List Nat) : (distribute_to_session_process st pr b data).1.out = st.out := by
  obtain ⟨hw, wb, sess, del, h1, _⟩ := dp_eq data st pr b
  rw [h1]

theorem dp_shutdown (data : List (Nat × SessionEvent)) (st : Service) (pr : Priority)
    (b : List Nat) :
    (distribute_to_session_process st pr b data).1.shutdown = st.shutdown := by
  obtain ⟨hw, wb, sess, del, h1, _⟩ := dp_eq data st pr b
  rw [h1]

theorem dp_next_session (data : List (Nat × SessionEvent)) (st : Service)
    (pr : Priority) (b : List Nat) :
    (distribute_to_session_process st pr b data).1.next_session = st.next_session := by
  obtain ⟨hw, wb, sess, del, h1, _⟩ := dp_eq data st pr b
  rw [h1]

theorem dp_session_service_protos (data : List (Nat × SessionEvent)) (st : Service)
    (pr : Priority) (b : List Nat) :
    (distribute_to_session_process st pr b data).1.session_service_protos =
      st.session_service_protos := by
  obtain ⟨hw, wb, sess, del, h1, _⟩ := dp_eq data st pr b
  rw [h1]

theorem dp_service_proto_handles (data : List (Nat × SessionEvent)) (st : Service)
    (pr : Priority) (b : List Nat) :
    (distribute_to_session_process st pr b data).1.service_proto_handles =
      st.service_proto_handles := by
  obtain ⟨hw, wb, sess, del, h1, _⟩ := dp_eq data st pr b
  rw [h1]

theorem dp_session_proto_handles (data : List (Nat × SessionEvent)) (st : Service)
    (pr : Priority) (b : List Nat) :
    (distribute_to_session_process st pr b data).1.session_proto_handles =
      st.session_proto_handles := by
  obtain ⟨hw, wb, sess, del, h1, _⟩ := dp_eq data st pr b
  rw [h1]

theorem dp_sessions_inner (data : List (Nat × SessionEvent)) (st : Service)
    (pr : Priority) (b : List Nat) :
    (distribute_to_session_process st pr b data).1.sessions.map
        (fun p => (p.1, p.2.inner)) =
      st.sessions.map (fun p => (p.1, p.2.inner)) := by
  obtain ⟨hw, wb, sess, del, h1, h2⟩ := dp_eq data st pr b
  rw [h1]
  exact h2

theorem dp_sessions_length (data : List (Nat × SessionEvent)) (st : Service)
    (pr : Priority) (b : List Nat) :
    (distribute_to_session_process st pr b data).1.sessions.length =
      st.sessions.length := by
  have h := dp_sessions_inner data st pr b
  have := congrArg List.length h
  simpa using this

theorem otherBufOf_update_sessions (st : Service) (pr : Priority)
    (sess : List (Nat × SessionController)) :
    otherBufOf pr { st with sessions := sess } = otherBufOf pr st := by
  cases pr <;> rfl

theorem bufOf_update_sessions (st : Service) (pr : Priority)
    (sess : List (Nat × SessionController)) :
    bufOf pr { st with sessions := sess } = bufOf pr st := by
  cases pr <;> rfl

/-- The dispatch pass of one priority never touches the buffer of the
other priority. -/
theorem dp_otherBuf (data : List (Nat × SessionEvent)) :
    ∀ (st : Service) (pr : Priority) (b : List Nat),
    otherBufOf pr (distribute_to_session_process st pr b data).1 = otherBufOf pr st := by
  induction data with
  | nil => intro st pr b; rfl
  | cons hd tl ih =>
    intro st pr b
    obtain ⟨id, event⟩ := hd
    simp only [distribute_to_session_process]
    by_cases hb : id ∈ b
    · simp only [if_pos hb]
      rw [ih, push_back_otherBufOf]
    · simp only [if_neg hb]
      cases hlk : alookup st.sessions id with
      | none => exact ih st pr b
      | some session =>
        simp only
        by_cases hcl : session.inner.closed ∧ event.isProtocolMessage
        · simp only [if_pos hcl]
          exact ih st pr b
        · simp only [if_neg hcl]
          rcases hts : session.try_send pr event with ⟨res, session'⟩
          cases res with
          | sent =>
            rw [ih, otherBufOf_update_sessions]
          | full event' =>
            dsimp only
            rw [ih]
            have h1 : otherBufOf pr (set_delay
                (push_back { st with sessions := ainsert st.sessions id session' }
                  pr id event')) =
                otherBufOf pr
                  (push_back { st with sessions := ainsert st.sessions id session' }
                    pr id event') := by
              cases pr <;> rfl
            rw [h1, push_back_otherBufOf, otherBufOf_update_sessions]
          | closed =>
            rw [ih, otherBufOf_update_sessions]

/-- Every member of the incoming blocked set survives the pass. -/
theorem dp_blocked_mono (data : List (Nat × SessionEvent)) :
    ∀ (st : Service) (pr : Priority) (b : List Nat) (x : Nat), x ∈ b →
      x ∈ (distribute_to_session_process st pr b data).2 := by
  induction data with
  | nil => intro st pr b x hx; exact hx
  | cons hd tl ih =>
    intro st pr b x hx
    obtain ⟨id, event⟩ := hd
    simp only [distribute_to_session_process]
    by_cases hb : id ∈ b
    · simp only [if_pos hb]; exact ih _ pr b x hx
    · simp only [if_neg hb]
      cases hlk : alookup st.sessions id with
      | none => exact ih st pr b x hx
      | some session =>
        simp only
        by_cases hcl : session.inner.closed ∧ event.isProtocolMessage
        · simp only [if_pos hcl]; exact ih st pr b x hx
        · simp only [if_neg hcl]
          rcases hts : session.try_send pr event with ⟨res, session'⟩
          cases res with
          | sent => exact ih _ pr b x hx
          | full event' =>
            dsimp only
            exact ih _ pr (sinsert b id) x (mem_sinsert_of_mem b id x hx)
          | closed => exact ih _ pr b x hx

/-- The blocked set stays duplicate-free. -/
theorem dp_blocked_nodup (data : List (Nat × SessionEvent)) :
    ∀ (st : Service) (pr : Priority) (b : List Nat), b.Nodup →
      (distribute_to_session_process st pr b data).2.Nodup := by
  induction data with
  | nil => intro st pr b hb; exact hb
  | cons hd tl ih =>
    intro st pr b hb
    obtain ⟨id, event⟩ := hd
    simp only [distribute_to_session_process]
    by_cases hmem : id ∈ b
    · simp only [if_pos hmem]; exact ih _ pr b hb
    · simp only [if_neg hmem]
      cases hlk : alookup st.sessions id with
      | none => exact ih st pr b hb
      | some session =>
        simp only
        by_cases hcl : session.inner.closed ∧ event.isProtocolMessage
        · simp only [if_pos hcl]; exact ih st pr b hb
        · simp only [if_neg hcl]
          rcases hts : session.try_send pr event with ⟨res, session'⟩
          cases res with
          | sent => exact ih _ pr b hb
          | full event' =>
            dsimp only
            exact ih _ pr (sinsert b id) (sinsert_nodup b id hb)
          | closed => exact ih _ pr b hb

/-- Everything a dispatch pass adds to its own buffer is destined for a
blocked session. -/
theorem dp_requeue (data : List (Nat × SessionEvent)) :
    ∀ (st : Service) (pr : Priority) (b : List Nat),
    ∃ extra,
      bufOf pr (distribute_to_session_process st pr b data).1 = bufOf pr st ++ extra ∧
      ∀ e ∈ extra, e.1 ∈ (distribute_to_session_process st pr b data).2 := by
  induction data with
  | nil =>
    intro st pr b
    exact ⟨[], by simp [distribute_to_session_process], by simp [distribute_to_session_process]⟩
  | cons hd tl ih =>
    intro st pr b
    obtain ⟨id, event⟩ := hd
    simp only [distribute_to_session_process]
    by_cases hb : id ∈ b
    · simp only [if_pos hb]
      obtain ⟨extra, h1, h2⟩ := ih (push_back st pr id event) pr b
      refine ⟨(id, event) :: extra, ?_, ?_⟩
      · rw [h1, push_back_bufOf]
        simp
      · intro e he
        rcases List.mem_cons.mp he with he | he
        · subst he
          exact dp_blocked_mono tl _ pr b id hb
        · exact h2 e he
    · simp only [if_neg hb]
      cases hlk : alookup st.sessions id with
      | none => exact ih st pr b
      | some session =>
        simp only
        by_cases hcl : session.inner.closed ∧ event.isProtocolMessage
        · simp only [if_pos hcl]; exact ih st pr b
        · simp only [if_neg hcl]
          rcases hts : session.try_send pr event with ⟨res, session'⟩
          cases res with
          | sent =>
            obtain ⟨extra, h1, h2⟩ :=
              ih { st with sessions := ainsert st.sessions id session' } pr b
            refine ⟨extra, ?_, h2⟩
            rw [h1, bufOf_update_sessions]
          | full event' =>
            dsimp only
            obtain ⟨extra, h1, h2⟩ :=
              ih (set_delay
                (push_back { st with sessions := ainsert st.sessions id session' }
                  pr id event')) pr (sinsert b id)
            refine ⟨(id, event') :: extra, ?_, ?_⟩
            · rw [h1]
              have hsd : bufOf pr (set_delay
                  (push_back { st with sessions := ainsert st.sessions id session' }
                    pr id event')) =
                  bufOf pr
                    (push_back { st with sessions := ainsert st.sessions id session' }
                      pr id event') := by
                cases pr <;> rfl
              rw [hsd, push_back_bufOf, bufOf_update_sessions]
              simp
            · intro e he
              rcases List.mem_cons.mp he with he | he
              · subst he
                exact dp_blocked_mono tl _ pr (sinsert b id) id (mem_sinsert_self b id)
              · exact h2 e he
          | closed =>
            obtain ⟨extra, h1, h2⟩ :=
              ih { st with sessions := ainsert st.sessions id session' } pr b
            refine ⟨extra, ?_, h2⟩
            rw [h1, bufOf_update_sessions]

/-- Per-destination order: for a destination blocked at entry, all its
events are re-queued at the back of the buffer of the pass's priority, in
their arrival order. -/
theorem dp_order (data : List (Nat × SessionEvent)) :
    ∀ (st : Service) (pr : Priority) (b : List Nat) (d : Nat), d ∈ b →
      (bufOf pr (distribute_to_session_process st pr b data).1).filter
          (fun e => e.1 = d) =
        (bufOf pr st).filter (fun e => e.1 = d) ++ data.filter (fun e => e.1 = d) := by
  induction data with
  | nil => intro st pr b d hd; simp [distribute_to_session_process]
  | cons hd tl ih =>
    intro st pr b d hdb
    obtain ⟨id, event⟩ := hd
    simp only [distribute_to_session_process]
    by_cases hb : id ∈ b
    · simp only [if_pos hb]
      rw [ih (push_back st pr id event) pr b d hdb, push_back_bufOf]
      by_cases hid : id = d
      · subst hid
        simp [List.filter_append]
      · simp [List.filter_append, hid]
    · have hid : ¬ id = d := fun hh => hb (hh ▸ hdb)
      simp only [if_neg hb]
      cases hlk : alookup st.sessions id with
      | none =>
        rw [ih st pr b d hdb]
        simp [hid]
      | some session =>
        simp only
        by_cases hcl : session.inner.closed ∧ event.isProtocolMessage
        · simp only [if_pos hcl]
          rw [ih st pr b d hdb]
          simp [hid]
        · simp only [if_neg hcl]
          rcases hts : session.try_send pr event with ⟨res, session'⟩
          cases res with
          | sent =>
            rw [ih _ pr b d hdb, bufOf_update_sessions]
            simp [hid]
          | full event' =>
            dsimp only
            rw [ih _ pr (sinsert b id) d (mem_sinsert_of_mem b id d hdb)]
            have hsd : bufOf pr (set_delay
                (push_back { st with sessions := ainsert st.sessions id session' }
                  pr id event')) =
                bufOf pr
                  (push_back { st with sessions := ainsert st.sessions id session' }
                    pr id event') := by
              cases pr <;> rfl
            rw [hsd, push_back_bufOf, bufOf_update_sessions]
            simp [List.filter_append, hid]
          | closed =>
            rw [ih _ pr b d hdb, bufOf_update_sessions]
            simp [hid]

theorem try_send_pm_filter (c : SessionController) (pr : Priority) (ev : SessionEvent)
    (h : ev.isProtocolMessage = false) :
    ((c.try_send pr ev).2.quick.buf.filter SessionEvent.isProtocolMessage =
        c.quick.buf.filter SessionEvent.isProtocolMessage) ∧
      ((c.try_send pr ev).2.normal.buf.filter SessionEvent.isProtocolMessage =
        c.normal.buf.filter SessionEvent.isProtocolMessage) := by
  cases pr with
  | high =>
    by_cases h1 : c.quick.closed
    · simp [SessionController.try_send, Priority.is_high, Chan.trySend, h1]
    · by_cases h2 : c.quick.cap ≤ c.quick.buf.length
      · simp [SessionController.try_send, Priority.is_high, Chan.trySend, h1, h2]
      · simp [SessionController.try_send, Priority.is_high, Chan.trySend, h1, h2,
          List.filter_append, h]
  | normal =>
    by_cases h1 : c.normal.closed
    · simp [SessionController.try_send, Priority.is_high, Chan.trySend, h1]
    · by_cases h2 : c.normal.cap ≤ c.normal.buf.length
      · simp [SessionController.try_send, Priority.is_high, Chan.trySend, h1, h2]
      · simp [SessionController.try_send, Priority.is_high, Chan.trySend, h1, h2,
          List.filter_append, h]

/-- A closed session's channels never receive a `ProtocolMessage` during
a dispatch pass, and its context survives untouched. -/
theorem dp_closed (data : List (Nat × SessionEvent)) :
    ∀ (st : Service) (pr : Priority) (b : List Nat) (sid : Nat) (c : SessionController),
    alookup st.sessions sid = some c → c.inner.closed = true →
    ∃ c', alookup (distribute_to_session_process st pr b data).1.sessions sid = some c' ∧
      c'.inner = c.inner ∧
      c'.quick.buf.filter SessionEvent.isProtocolMessage =
        c.quick.buf.filter SessionEvent.isProtocolMessage ∧
      c'.normal.buf.filter SessionEvent.isProtocolMessage =
        c.normal.buf.filter SessionEvent.isProtocolMessage := by
  induction data with
  | nil =>
    intro st pr b sid c hc hcl
    exact ⟨c, by simpa [distribute_to_session_process] using hc, rfl, rfl, rfl⟩
  | cons hd tl ih =>
    intro st pr b sid c hc hcl
    obtain ⟨id, event⟩ := hd
    simp only [distribute_to_session_process]
    by_cases hb : id ∈ b
    · simp only [if_pos hb]
      exact ih (push_back st pr id event) pr b sid c
        (by
          obtain ⟨hw0, wb0, hpb⟩ := push_back_eq st pr id event
          rw [hpb]
          exact hc) hcl
    · simp only [if_neg hb]
      cases hlk : alookup st.sessions id with
      | none => exact ih st pr b sid c hc hcl
      | some session =>
        simp only
        by_cases hclpm : session.inner.closed ∧ event.isProtocolMessage
        · simp only [if_pos hclpm]
          exact ih st pr b sid c hc hcl
        · simp only [if_neg hclpm]
          rcases hts : session.try_send pr event with ⟨res, session'⟩
          by_cases hid : id = sid
          · subst hid
            have hsc : session = c := by
              rw [hc] at hlk
              exact (Option.some_inj.mp hlk).symm
            subst hsc
            have hpm : event.isProtocolMessage = false := by
              rcases Bool.eq_false_or_eq_true event.isProtocolMessage with h | h
              · exact absurd ⟨hcl, h⟩ hclpm
              · exact h
            have hfil := try_send_pm_filter session pr event hpm
            rw [hts] at hfil
            have hinner : session'.inner = session.inner := by
              have := try_send_inner session pr event
              rw [hts] at this
              exact this
            have hlk' :
                alookup (ainsert st.sessions id session') id = some session' :=
              alookup_ainsert_self st.sessions id session'
            have hcl' : session'.inner.closed = true := by rw [hinner]; exact hcl
            cases res with
            | sent =>
              obtain ⟨c', h1, h2, h3, h4⟩ :=
                ih { st with sessions := ainsert st.sessions id session' } pr b id
                  session' hlk' hcl'
              exact ⟨c', h1, h2.trans hinner, h3.trans hfil.1, h4.trans hfil.2⟩
            | full event' =>
              dsimp only
              obtain ⟨hw0, wb0, hpb⟩ :=
                push_back_eq { st with sessions := ainsert st.sessions id session' }
                  pr id event'
              rw [hpb]
              obtain ⟨c', h1, h2, h3, h4⟩ :=
                ih (set_delay
                  { { st with sessions := ainsert st.sessions id session' } with
                      high_write_buf := hw0, write_buf := wb0 }) pr (sinsert b id) id
                  session' (by exact hlk') hcl'
              exact ⟨c', h1, h2.trans hinner, h3.trans hfil.1, h4.trans hfil.2⟩
            | closed =>
              obtain ⟨c', h1, h2, h3, h4⟩ :=
                ih { st with sessions := ainsert st.sessions id session' } pr b id
                  session' hlk' hcl'
              exact ⟨c', h1, h2.trans hinner, h3.trans hfil.1, h4.trans hfil.2⟩
          · have hlk' :
                alookup (ainsert st.sessions id session') sid = some c := by
              rw [alookup_ainsert_ne st.sessions id sid session'
                (fun hh => hid hh.symm)]
              exact hc
            cases res with
            | sent =>
              exact ih { st with sessions := ainsert st.sessions id session' } pr b
                sid c hlk' hcl
            | full event' =>
              dsimp only
              obtain ⟨hw0, wb0, hpb⟩ :=
                push_back_eq { st with sessions := ainsert st.sessions id session' }
                  pr id event'
              rw [hpb]
              exact ih (set_delay
                { { st with sessions := ainsert st.sessions id session' } with
                    high_write_buf := hw0, write_buf := wb0 }) pr (sinsert b id) sid c
                (by exact hlk') hcl
            | closed =>
              exact ih { st with sessions := ainsert st.sessions id session' } pr b
                sid c hlk' hcl

/-- The `SessionBlocked` loop only appends to the effect log: one
notification per blocked id that is still a live session. -/
theorem emitBlocked_eq (b : List Nat) :
    ∀ (st : Service),
    emitBlocked st b =
      { st with
        out := st.out ++
          b.filterMap (fun id =>
            (alookup st.sessions id).map
              (fun c => Effect.handleError (.sessionBlocked c.inner))) } := by
  induction b with
  | nil => intro st; simp [emitBlocked]
  | cons id rest ih =>
    intro st
    cases hlk : alookup st.sessions id with
    | none =>
      have hstep : emitBlocked st (id :: rest) = emitBlocked st rest := by
        simp only [emitBlocked, List.foldl_cons, hlk]
      rw [hstep, ih st]
      simp [List.filterMap_cons, hlk]
    | some c =>
      have hstep : emitBlocked st (id :: rest) =
          emitBlocked (emit st (.handleError (.sessionBlocked c.inner))) rest := by
        simp only [emitBlocked, List.foldl_cons, hlk]
      rw [hstep, ih (emit st (.handleError (.sessionBlocked c.inner)))]
      simp [emit, List.filterMap_cons, hlk]

/-- The high-priority pass of one `distribute_to_session` round. -/
def dts_high (st : Service) : Service × List Nat :=
  distribute_to_session_process { st with high_write_buf := [] } .high [] st.high_write_buf

/-- Both passes of one `distribute_to_session` round: the normal pass
runs only when the sessions outnumber the destinations blocked by the
high pass. -/
def dts_both (st : Service) : Service × List Nat :=
  let r := dts_high st
  if r.2.length < r.1.sessions.length then
    distribute_to_session_process { r.1 with write_buf := [] } .normal r.2 r.1.write_buf
  else r

theorem dts_decomp (st : Service) (h : st.shutdown = false) :
    distribute_to_session st = emitBlocked (dts_both st).1 (dts_both st).2 := by
  simp only [distribute_to_session, h, Bool.false_eq_true, if_false, dts_both, dts_high]

/-- The gate of the normal pass, phrased over the pre-round state: the
high pass changes neither the session count nor (being the high pass)
the normal buffer. -/
theorem dts_gate (st : Service) :
    ((dts_high st).2.length < (dts_high st).1.sessions.length) =
      ((dts_high st).2.length < st.sessions.length) := by
  rw [dts_high, dp_sessions_length]

theorem emitBlocked_out (st : Service) (b : List Nat) :
    (emitBlocked st b).out = st.out ++
      b.filterMap (fun id =>
        (alookup st.sessions id).map
          (fun c => Effect.handleError (.sessionBlocked c.inner))) := by
  rw [emitBlocked_eq]

theorem emitBlocked_write_buf (st : Service) (b : List Nat) :
    (emitBlocked st b).write_buf = st.write_buf := by
  rw [emitBlocked_eq]

theorem emitBlocked_high_write_buf (st : Service) (b : List Nat) :
    (emitBlocked st b).high_write_buf = st.high_write_buf := by
  rw [emitBlocked_eq]

theorem emitBlocked_sessions (st : Service) (b : List Nat) :
    (emitBlocked st b).sessions = st.sessions := by
  rw [emitBlocked_eq]

theorem emitBlocked_session_service_protos (st : Service) (b : List Nat) :
    (emitBlocked st b).session_service_protos = st.session_service_protos := by
  rw [emitBlocked_eq]

theorem emitBlocked_service_proto_handles (st : Service) (b : List Nat) :
    (emitBlocked st b).service_proto_handles = st.service_proto_handles := by
  rw [emitBlocked_eq]

theorem emitBlocked_session_proto_handles (st : Service) (b : List Nat) :
    (emitBlocked st b).session_proto_handles = st.session_proto_handles := by
  rw [emitBlocked_eq]

theorem emitBlocked_next_session (st : Service) (b : List Nat) :
    (emitBlocked st b).next_session = st.next_session := by
  rw [emitBlocked_eq]

theorem emitBlocked_shutdown (st : Service) (b : List Nat) :
    (emitBlocked st b).shutdown = st.shutdown := by
  rw [emitBlocked_eq]

/-- Frame of a whole dispatch round: the maps, the counters and the read
buffers survive; the effect log only grows. -/
theorem dts_frame (st : Service) :
    (distribute_to_session st).session_service_protos = st.session_service_protos ∧
    (distribute_to_session st).service_proto_handles = st.service_proto_handles ∧
    (distribute_to_session st).session_proto_handles = st.session_proto_handles ∧
    (distribute_to_session st).next_session = st.next_session ∧
    (distribute_to_session st).shutdown = st.shutdown ∧
    (distribute_to_session st).sessions.map (fun p => (p.1, p.2.inner)) =
      st.sessions.map (fun p => (p.1, p.2.inner)) ∧
    ∃ Δ, (distribute_to_session st).out = st.out ++ Δ := by
  by_cases h : st.shutdown = true
  · rw [show distribute_to_session st = st by simp [distribute_to_session, h]]
    exact ⟨rfl, rfl, rfl, rfl, rfl, rfl, [], by simp⟩
  · have h' : st.shutdown = false := by
      rcases Bool.eq_false_or_eq_true st.shutdown with hh | hh
      · exact absurd hh h
      · exact hh
    rw [dts_decomp st h']
    have frame2 :
        (dts_both st).1.session_service_protos = st.session_service_protos ∧
        (dts_both st).1.service_proto_handles = st.service_proto_handles ∧
        (dts_both st).1.session_proto_handles = st.session_proto_handles ∧
        (dts_both st).1.next_session = st.next_session ∧
        (dts_both st).1.shutdown = st.shutdown ∧
        (dts_both st).1.sessions.map (fun p => (p.1, p.2.inner)) =
          st.sessions.map (fun p => (p.1, p.2.inner)) ∧
        (dts_both st).1.out = st.out := by
      rw [dts_both]
      split
      · refine ⟨?_, ?_, ?_, ?_, ?_, ?_, ?_⟩ <;>
          (first
            | (rw [dp_session_service_protos, dts_high, dp_session_service_protos])
            | (rw [dp_service_proto_handles, dts_high, dp_service_proto_handles])
            | (rw [dp_session_proto_handles, dts_high, dp_session_proto_handles])
            | (rw [dp_next_session, dts_high, dp_next_session])
            | (rw [dp_shutdown, dts_high, dp_shutdown])
            | (rw [dp_sessions_inner, dts_high, dp_sessions_inner])
            | (rw [dp_out, dts_high, dp_out]))
      · refine ⟨?_, ?_, ?_, ?_, ?_, ?_, ?_⟩ <;>
          (first
            | (rw [dts_high, dp_session_service_protos])
            | (rw [dts_high, dp_service_proto_handles])
            | (rw [dts_high, dp_session_proto_handles])
            | (rw [dts_high, dp_next_session])
            | (rw [dts_high, dp_shutdown])
            | (rw [dts_high, dp_sessions_inner])
            | (rw [dts_high, dp_out]))
    obtain ⟨f1, f2, f3, f4, f5, f6, f7⟩ := frame2
    refine ⟨?_, ?_, ?_, ?_, ?_, ?_, ?_⟩
    · rw [emitBlocked_session_service_protos]; exact f1
    · rw [emitBlocked_service_proto_handles]; exact f2
    · rw [emitBlocked_session_proto_handles]; exact f3
    · rw [emitBlocked_next_session]; exact f4
    · rw [emitBlocked_shutdown]; exact f5
    · rw [emitBlocked_sessions]; exact f6
    · rw [emitBlocked_out, f7]
      exact ⟨_, rfl⟩

/-! ### Concrete witness material -/

/-- A small concrete configuration for witness states. -/
def config0 : ServiceConfig :=
  { timeout := 10, max_frame_length := 1024, keep_buffer := false, upnp := false,
    event := [], send_event_size := 512, recv_event_size := 512 }

/-- A fresh, empty service state (forever off, no key pair). -/
def st0 : Service :=
  { protocol_configs := [], sessions := [], listens := [], igd_client := false,
    dial_protocols := [], config := config0, state := .running 0, next_session := 0,
    before_sends := [], high_write_buf := [], write_buf := [], read_service_buf := [],
    read_session_buf := [], future_task_manager := true,
    future_task_sender := Chan.empty SEND_SIZE, session_service_protos := [],
    service_proto_handles := [], session_proto_handles := [],
    session_event_receiver := { closed := false, queue := [] },
    service_context :=
      { listen_addrs := [], key_pair := none, quick_count := 0, normal_count := 0 },
    service_task_receiver := { closed := false, queue := [] },
    quick_task_receiver := { closed := false, queue := [] },
    pending_tasks := [], delay := false, shutdown := false, next_hid := 0, out := [] }

/-- A live session controller with empty channels. -/
def mkCtrl (id : Nat) (pubkey : Option Nat) (closed : Bool) : SessionController :=
  { quick := Chan.empty SEND_SIZE, normal := Chan.empty SEND_SIZE,
    inner :=
      { id := id, address := [], ty := .inbound, remote_pubkey := pubkey,
        closed := closed } }

/-! ### C4: no ProtocolMessage is enqueued for a closed session -/

/-- A state with one closed session and one `ProtocolMessage` plus one
`SessionClose` event queued for it. -/
def c4state : Service :=
  { st0 with
    sessions := [(1, mkCtrl 1 none true)],
    write_buf :=
      [(1, .protocolMessage 1 7 .normal [2]), (1, .sessionClose 1)] }

/-- C4. During a dispatch round, a session whose shared `closed` flag is
set receives no `ProtocolMessage` on either channel (the message is
dropped, not sent), while the concrete run shows a non-`ProtocolMessage`
event is still delivered to the closed session. -/
theorem C4_no_message_to_closed_session (st : Service) (sid : Nat)
    (c : SessionController) (hsd : st.shutdown = false)
    (hc : alookup st.sessions sid = some c) (hcl : c.inner.closed = true) :
    (∃ c', alookup (distribute_to_session st).sessions sid = some c' ∧
      c'.inner = c.inner ∧
      c'.quick.buf.filter SessionEvent.isProtocolMessage =
        c.quick.buf.filter SessionEvent.isProtocolMessage ∧
      c'.normal.buf.filter SessionEvent.isProtocolMessage =
        c.normal.buf.filter SessionEvent.isProtocolMessage) ∧
    (alookup (distribute_to_session c4state).sessions 1).map
        (fun c' => c'.normal.buf) = some [SessionEvent.sessionClose 1] := by
  constructor
  · rw [dts_decomp st hsd]
    rw [emitBlocked_sessions]
    rw [dts_both]
    split
    · have step1 := dp_closed st.high_write_buf
        { st with high_write_buf := [] } .high [] sid c hc hcl
      obtain ⟨c1, h1, h2, h3, h4⟩ := step1
      have step2 := dp_closed (dts_high st).1.write_buf
        { (dts_high st).1 with write_buf := [] } .normal (dts_high st).2 sid c1
        (by exact h1) (by rw [h2]; exact hcl)
      obtain ⟨c2, g1, g2, g3, g4⟩ := step2
      exact ⟨c2, g1, g2.trans h2, g3.trans h3, g4.trans h4⟩
    · exact dp_closed st.high_write_buf
        { st with high_write_buf := [] } .high [] sid c hc hcl
  · rfl

/-- Witness for C4 at a concrete closed session with a queued message. -/
theorem C4_no_message_to_closed_session_witness :
    c4state.shutdown = false ∧
    alookup c4state.sessions 1 = some (mkCtrl 1 none true) ∧
    (mkCtrl 1 none true).inner.closed = true ∧
    ((∃ c', alookup (distribute_to_session c4state).sessions 1 = some c' ∧
      c'.inner = (mkCtrl 1 none true).inner ∧
      c'.quick.buf.filter SessionEvent.isProtocolMessage =
        (mkCtrl 1 none true).quick.buf.filter SessionEvent.isProtocolMessage ∧
      c'.normal.buf.filter SessionEvent.isProtocolMessage =
        (mkCtrl 1 none true).normal.buf.filter SessionEvent.isProtocolMessage) ∧
    (alookup (distribute_to_session c4state).sessions 1).map
        (fun c' => c'.normal.buf) = some [SessionEvent.sessionClose 1]) :=
  ⟨rfl, rfl, rfl,
    C4_no_message_to_closed_session c4state 1 (mkCtrl 1 none true) rfl rfl rfl⟩

/-! ### C7: dispatch policy of `distribute_to_session` -/

/-- C7. In one dispatch round (service not shut down): the normal buffer
is drained only when the live sessions outnumber the destinations
blocked by the (earlier) high pass — otherwise `write_buf` is untouched;
whatever either pass leaves in a buffer is destined for a blocked
session; an event whose destination is blocked within a pass is
re-queued at the back of that pass's priority buffer preserving
per-destination order; and after draining, exactly one `SessionBlocked`
error is emitted per blocked session still live (the blocked set is
duplicate-free and the emitted effects are exactly one per blocked live
session, in order). -/
theorem C7_dispatch_policy (st : Service) (hsd : st.shutdown = false) :
    (¬ ((dts_high st).2.length < st.sessions.length) →
      (distribute_to_session st).write_buf = st.write_buf) ∧
    (((dts_high st).2.length < st.sessions.length) →
      ∀ e ∈ (distribute_to_session st).write_buf, e.1 ∈ (dts_both st).2) ∧
    (∀ e ∈ (distribute_to_session st).high_write_buf, e.1 ∈ (dts_both st).2) ∧
    (∀ (st' : Service) (pr : Priority) (b : List Nat) (d : Nat)
        (data : List (Nat × SessionEvent)), d ∈ b →
      (bufOf pr (distribute_to_session_process st' pr b data).1).filter
          (fun e => e.1 = d) =
        (bufOf pr st').filter (fun e => e.1 = d) ++ data.filter (fun e => e.1 = d)) ∧
    (dts_both st).2.Nodup ∧
    (distribute_to_session st).out = st.out ++
      (dts_both st).2.filterMap (fun i =>
        (alookup (dts_both st).1.sessions i).map
          (fun c => Effect.handleError (.sessionBlocked c.inner))) := by
  have hn1 : (dts_high st).2.Nodup := by
    rw [dts_high]
    exact dp_blocked_nodup st.high_write_buf _ .high [] List.nodup_nil
  have hHreq := dp_requeue st.high_write_buf { st with high_write_buf := [] } .high []
  obtain ⟨extraH, hH1, hH2⟩ := hHreq
  refine ⟨?_, ?_, ?_, ?_, ?_, ?_⟩
  · intro hgate
    have hboth : dts_both st = dts_high st := by
      rw [dts_both, if_neg]
      intro hcon
      apply hgate
      rw [dts_high] at hcon ⊢
      rwa [dp_sessions_length] at hcon
    rw [dts_decomp st hsd, hboth, emitBlocked_write_buf]
    show otherBufOf .high (dts_high st).1 = otherBufOf .high { st with high_write_buf := [] }
    rw [dts_high]
    exact dp_otherBuf st.high_write_buf _ .high []
  · intro hgate
    have hboth : dts_both st =
        distribute_to_session_process
          { (dts_high st).1 with write_buf := [] } .normal (dts_high st).2
          (dts_high st).1.write_buf := by
      rw [dts_both, if_pos]
      rw [dts_high, dp_sessions_length]
      exact hgate
    obtain ⟨extraN, hN1, hN2⟩ :=
      dp_requeue (dts_high st).1.write_buf
        { (dts_high st).1 with write_buf := [] } .normal (dts_high st).2
    have hN1' :
        (distribute_to_session_process
          { (dts_high st).1 with write_buf := [] } .normal (dts_high st).2
          (dts_high st).1.write_buf).1.write_buf = extraN := by
      simpa [bufOf, Priority.is_high] using hN1
    intro e he
    rw [dts_decomp st hsd, emitBlocked_write_buf, hboth, hN1'] at he
    rw [hboth]
    exact hN2 e he
  · intro e he
    rw [dts_decomp st hsd, emitBlocked_high_write_buf] at he
    have hH1' : (dts_high st).1.high_write_buf = extraH := by
      have : (dts_high st).1.high_write_buf =
          bufOf .high (distribute_to_session_process
            { st with high_write_buf := [] } .high [] st.high_write_buf).1 := by
        rw [dts_high]; rfl
      rw [this, hH1]
      rfl
    by_cases hgate : (dts_high st).2.length < (dts_high st).1.sessions.length
    · have hboth : dts_both st =
          distribute_to_session_process
            { (dts_high st).1 with write_buf := [] } .normal (dts_high st).2
            (dts_high st).1.write_buf := by
        rw [dts_both, if_pos hgate]
      have hhigh : (dts_both st).1.high_write_buf = (dts_high st).1.high_write_buf := by
        rw [hboth]
        show otherBufOf .normal _ = otherBufOf .normal { (dts_high st).1 with write_buf := [] }
        exact dp_otherBuf _ _ .normal _
      rw [hhigh, hH1'] at he
      have hmemH : e.1 ∈ (dts_high st).2 := hH2 e he
      rw [hboth]
      exact dp_blocked_mono (dts_high st).1.write_buf _ .normal (dts_high st).2 e.1 hmemH
    · have hboth : dts_both st = dts_high st := by
        rw [dts_both, if_neg hgate]
      rw [hboth, hH1'] at he
      rw [hboth]
      exact hH2 e he
  · intro st' pr b d data hd
    exact dp_order data st' pr b d hd
  · rw [dts_both]
    split
    · exact dp_blocked_nodup _ _ .normal _ hn1
    · exact hn1
  · rw [dts_decomp st hsd, emitBlocked_out]
    have hout : (dts_both st).1.out = st.out := by
      rw [dts_both]
      split
      · rw [dp_out, dts_high, dp_out]
      · rw [dts_high, dp_out]
    rw [hout]

/-- A state for the C7 witness: two live sessions, one with a full
normal channel, one message queued for each. -/
def c7state : Service :=
  { st0 with
    sessions :=
      [(1, mkCtrl 1 none false),
       (2, { mkCtrl 2 none false with
              normal := { closed := false, cap := 0, buf := [] } })],
    write_buf :=
      [(2, .protocolMessage 2 7 .normal [1]), (1, .protocolMessage 1 7 .normal [2])] }

/-- Witness for C7: on `c7state` session 2's channel is full, so its
message is re-queued, session 1 still gets its message, and exactly one
`SessionBlocked` is emitted. -/
theorem C7_dispatch_policy_witness :
    c7state.shutdown = false ∧
    ((¬ ((dts_high c7state).2.length < c7state.sessions.length) →
      (distribute_to_session c7state).write_buf = c7state.write_buf) ∧
    (((dts_high c7state).2.length < c7state.sessions.length) →
      ∀ e ∈ (distribute_to_session c7state).write_buf, e.1 ∈ (dts_both c7state).2) ∧
    (∀ e ∈ (distribute_to_session c7state).high_write_buf, e.1 ∈ (dts_both c7state).2) ∧
    (∀ (st' : Service) (pr : Priority) (b : List Nat) (d : Nat)
        (data : List (Nat × SessionEvent)), d ∈ b →
      (bufOf pr (distribute_to_session_process st' pr b data).1).filter
          (fun e => e.1 = d) =
        (bufOf pr st').filter (fun e => e.1 = d) ++ data.filter (fun e => e.1 = d)) ∧
    (dts_both c7state).2.Nodup ∧
    (distribute_to_session c7state).out = c7state.out ++
      (dts_both c7state).2.filterMap (fun i =>
        (alookup (dts_both c7state).1.sessions i).map
          (fun c => Effect.handleError (.sessionBlocked c.inner)))) :=
  ⟨rfl, C7_dispatch_policy c7state rfl⟩

/-! ### C8: external session close only enqueues and dispatches -/

/-- C8. `session_close` with `Source::External` appends one
`SessionClose` event for the session to `write_buf` and runs one
dispatch round; the session map (ids and contexts), the open-protocol
map, both handler maps and `next_session` are all unchanged by the
call. -/
theorem C8_session_close_external_frame (st : Service) (id : Nat) :
    (session_close st id .external).session_service_protos = st.session_service_protos ∧
    (session_close st id .external).session_proto_handles = st.session_proto_handles ∧
    (session_close st id .external).service_proto_handles = st.service_proto_handles ∧
    (session_close st id .external).next_session = st.next_session ∧
    (session_close st id .external).sessions.map (fun p => (p.1, p.2.inner)) =
      st.sessions.map (fun p => (p.1, p.2.inner)) ∧
    session_close st id .external =
      distribute_to_session
        { st with write_buf := st.write_buf ++ [(id, .sessionClose id)] } := by
  have hframe :=
    dts_frame { st with write_buf := st.write_buf ++ [(id, .sessionClose id)] }
  obtain ⟨f1, f2, f3, f4, _, f6, _⟩ := hframe
  exact ⟨f1, f3, f2, f4, f6, rfl⟩

/-! ### Lemmas about `session_open` -/

theorem emit_sessions (st : Service) (e : Effect) : (emit st e).sessions = st.sessions :=
  rfl

theorem emit_next_session (st : Service) (e : Effect) :
    (emit st e).next_session = st.next_session := rfl

theorem handle_open_session_sessions (st : Service) (proto_id id : Nat) :
    (handle_open_session st proto_id id).sessions = st.sessions := by
  unfold handle_open_session
  cases alookup st.sessions id <;> rfl

theorem handle_open_session_next_session (st : Service) (proto_id id : Nat) :
    (handle_open_session st proto_id id).next_session = st.next_session := by
  unfold handle_open_session
  cases alookup st.sessions id <;> rfl

theorem open_proto_streams_sessions (st : Service) (target : TargetProtocol) :
    (open_proto_streams st target).sessions = st.sessions := by
  cases target with
  | all =>
    simp only [open_proto_streams]
    exact foldl_proj Service.sessions
      (fun s p => emit s (Effect.openProtoStream p.1)) (fun s p => rfl)
      st.protocol_configs st
  | single proto_id =>
    simp only [open_proto_streams]
    cases st.protocol_configs.find? (fun p => p.2.id == proto_id) <;> rfl
  | multi proto_ids =>
    simp only [open_proto_streams]
    exact foldl_proj Service.sessions
      (fun s p => emit s (Effect.openProtoStream p.2.name)) (fun s p => rfl)
      (st.protocol_configs.filter (fun p => p.2.id ∈ proto_ids)) st

theorem open_proto_streams_next_session (st : Service) (target : TargetProtocol) :
    (open_proto_streams st target).next_session = st.next_session := by
  cases target with
  | all =>
    simp only [open_proto_streams]
    exact foldl_proj Service.next_session
      (fun s p => emit s (Effect.openProtoStream p.1)) (fun s p => rfl)
      st.protocol_configs st
  | single proto_id =>
    simp only [open_proto_streams]
    cases st.protocol_configs.find? (fun p => p.2.id == proto_id) <;> rfl
  | multi proto_ids =>
    simp only [open_proto_streams]
    exact foldl_proj Service.next_session
      (fun s p => emit s (Effect.openProtoStream p.2.name)) (fun s p => rfl)
      (st.protocol_configs.filter (fun p => p.2.id ∈ proto_ids)) st

theorem handles_fold_sessions (ids : List Nat) (st : Service) :
    (ids.foldl
      (fun st proto_id =>
        if proto_handle_exists st true proto_id then
          handle_open_session st proto_id st.next_session
        else st) st).sessions = st.sessions := by
  refine foldl_proj Service.sessions _ ?_ ids st
  intro s pid
  by_cases h : proto_handle_exists s true pid
  · simp [h, handle_open_session_sessions]
  · simp [h]

theorem handles_fold_next_session (ids : List Nat) (st : Service) :
    (ids.foldl
      (fun st proto_id =>
        if proto_handle_exists st true proto_id then
          handle_open_session st proto_id st.next_session
        else st) st).next_session = st.next_session := by
  refine foldl_proj Service.next_session _ ?_ ids st
  intro s pid
  by_cases h : proto_handle_exists s true pid
  · simp [h, handle_open_session_next_session]
  · simp [h]

/-- After the tail of `session_open`, the new controller sits in the map
under the freshly allocated id, carrying the given address and key. -/
theorem session_open_rest_sessions (st : Service) (rpk : Option PublicKey)
    (address : Multiaddr) (ty : SessionType) (target : TargetProtocol) :
    (session_open_rest st rpk address ty target).sessions =
      ainsert st.sessions st.next_session
        { quick := Chan.empty SEND_SIZE, normal := Chan.empty SEND_SIZE,
          inner :=
            { id := st.next_session, address := address, ty := ty,
              remote_pubkey := rpk, closed := false } } := by
  unfold session_open_rest
  rw [emit_sessions]
  split
  · rw [open_proto_streams_sessions, emit_sessions, handles_fold_sessions]
  · rw [emit_sessions, handles_fold_sessions]

theorem session_open_rest_next_session (st : Service) (rpk : Option PublicKey)
    (address : Multiaddr) (ty : SessionType) (target : TargetProtocol) :
    (session_open_rest st rpk address ty target).next_session = st.next_session := by
  unfold session_open_rest
  rw [emit_next_session]
  split
  · rw [open_proto_streams_next_session, emit_next_session, handles_fold_next_session]
  · rw [emit_next_session, handles_fold_next_session]

/-! ### C5: duplicate public key is rejected with RepeatedConnection -/

/-- C5. A `session_open` whose public key matches a live session shuts
the new stream down, creates no session, leaves `next_session` alone,
and reports `RepeatedConnection` with the existing session's id — via
`DialerError` when outbound and `ListenError` when inbound. -/
theorem C5_repeated_connection (st : Service) (socket : Nat) (key : PublicKey)
    (address : Multiaddr) (ty : SessionType) (p : Nat × SessionController)
    (hfind : st.sessions.find? (fun q => q.2.inner.remote_pubkey == some key) = some p) :
    (session_open st socket (some key) address ty).sessions = st.sessions ∧
    (session_open st socket (some key) address ty).next_session = st.next_session ∧
    (session_open st socket (some key) address ty).out = st.out ++
      [.streamShutdown socket,
       .handleError
         (if ty.is_outbound then
           .dialerError address (.repeatedConnection p.2.inner.id)
         else .listenError address (.repeatedConnection p.2.inner.id))] := by
  cases ty <;>
    simp [session_open, SessionType.is_outbound, hfind, emit]

/-- A state with one live session holding public key 5. -/
def c5state : Service :=
  { st0 with sessions := [(3, mkCtrl 3 (some 5) false)], next_session := 3 }

/-- Witness for C5: dialling the already-connected key 5. -/
theorem C5_repeated_connection_witness :
    c5state.sessions.find? (fun q => q.2.inner.remote_pubkey == some 5) =
      some (3, mkCtrl 3 (some 5) false) ∧
    ((session_open c5state 9 (some 5) [] .outbound).sessions = c5state.sessions ∧
     (session_open c5state 9 (some 5) [] .outbound).next_session = c5state.next_session ∧
     (session_open c5state 9 (some 5) [] .outbound).out = c5state.out ++
       [.streamShutdown 9,
        .handleError
          (if SessionType.outbound.is_outbound then
            .dialerError [] (.repeatedConnection (mkCtrl 3 (some 5) false).inner.id)
          else .listenError [] (.repeatedConnection (mkCtrl 3 (some 5) false).inner.id))]) :=
  ⟨by decide,
    C5_repeated_connection c5state 9 5 [] .outbound (3, mkCtrl 3 (some 5) false)
      (by decide)⟩

/-! ### C6: peer-id check of `session_open` -/

/-- Counterexample to C6 as stated: when the handshake key also matches a
live session, the duplicate check fires first, so the user gets
`RepeatedConnection`, not `PeerIdNotMatch`, even though the dial address
carries a mismatched explicit peer-id. -/
theorem C6_counterexample :
    extract_peer_id [AddrProto.p2p 9] = some 9 ∧
    peer_id 5 ≠ 9 ∧
    (session_open c5state 9 (some 5) [AddrProto.p2p 9] .outbound).out =
      [.streamShutdown 9,
       .handleError (.dialerError [AddrProto.p2p 9] (.repeatedConnection 3))] ∧
    Effect.handleError (.dialerError [AddrProto.p2p 9] .peerIdNotMatch) ∉
      (session_open c5state 9 (some 5) [AddrProto.p2p 9] .outbound).out := by
  refine ⟨rfl, by decide, rfl, ?_⟩
  decide

/-- C6 (amended: the handshake key matches no live session, so the
duplicate check does not pre-empt the peer-id check). With a mismatched
explicit peer-id the open is rejected with `DialerError PeerIdNotMatch`,
no session is created and `next_session` is unchanged; with no peer-id
component the derived peer-id is appended to the address stored in the
new `SessionContext`. -/
theorem C6_peer_id_check (st : Service) (socket : Nat) (key : PublicKey)
    (address : Multiaddr) (ty : SessionType)
    (hfind : st.sessions.find? (fun q => q.2.inner.remote_pubkey == some key) = none) :
    (∀ pid, extract_peer_id address = some pid → peer_id key ≠ pid →
      (session_open st socket (some key) address ty).sessions = st.sessions ∧
      (session_open st socket (some key) address ty).next_session = st.next_session ∧
      (session_open st socket (some key) address ty).out =
        st.out ++ [.handleError (.dialerError address .peerIdNotMatch)]) ∧
    (extract_peer_id address = none →
      ∃ ctrl,
        alookup (session_open st socket (some key) address ty).sessions
          (st.next_session + 1) = some ctrl ∧
        ctrl.inner.address = address ++ [AddrProto.p2p (peer_id key)] ∧
        ctrl.inner.id = st.next_session + 1 ∧
        (session_open st socket (some key) address ty).next_session =
          st.next_session + 1) := by
  constructor
  · intro pid hpid hne
    cases ty <;>
      simp [session_open, SessionType.is_outbound, hfind, hpid, hne, emit]
  · intro hpid
    cases ty with
    | outbound =>
      simp only [session_open, SessionType.is_outbound, if_true, hfind, hpid]
      rw [session_open_rest_sessions, session_open_rest_next_session]
      exact ⟨_, alookup_ainsert_self _ _ _, rfl, rfl, rfl⟩
    | inbound =>
      simp only [session_open, SessionType.is_outbound, Bool.false_eq_true, if_false,
        hfind, hpid]
      rw [session_open_rest_sessions, session_open_rest_next_session]
      exact ⟨_, alookup_ainsert_self _ _ _, rfl, rfl, rfl⟩

/-- Witness for C6 at concrete inputs covering both conjuncts. -/
theorem C6_peer_id_check_witness :
    st0.sessions.find? (fun q => q.2.inner.remote_pubkey == some 5) = none ∧
    extract_peer_id [AddrProto.p2p 9] = some 9 ∧ peer_id 5 ≠ 9 ∧
    extract_peer_id [AddrProto.comp 4] = none ∧
    ((session_open st0 9 (some 5) [AddrProto.p2p 9] .outbound).sessions = st0.sessions ∧
     (session_open st0 9 (some 5) [AddrProto.p2p 9] .outbound).next_session =
       st0.next_session ∧
     (session_open st0 9 (some 5) [AddrProto.p2p 9] .outbound).out =
       st0.out ++ [.handleError (.dialerError [AddrProto.p2p 9] .peerIdNotMatch)]) ∧
    (∃ ctrl,
      alookup (session_open st0 9 (some 5) [AddrProto.comp 4] .outbound).sessions
        (st0.next_session + 1) = some ctrl ∧
      ctrl.inner.address = [AddrProto.comp 4] ++ [AddrProto.p2p (peer_id 5)] ∧
      ctrl.inner.id = st0.next_session + 1 ∧
      (session_open st0 9 (some 5) [AddrProto.comp 4] .outbound).next_session =
        st0.next_session + 1) :=
  ⟨rfl, rfl, by decide, rfl,
    (C6_peer_id_check st0 9 5 [AddrProto.p2p 9] .outbound rfl).1 9 rfl (by decide),
    (C6_peer_id_check st0 9 5 [AddrProto.comp 4] .outbound rfl).2 rfl⟩

/-! ### C1: external protocol open registers the handler under the wrong
session id -/

/-- A protocol with only a session-level callback handler. -/
def c1meta : ProtocolMeta :=
  { id := 7, name := "p", support_versions := [], service_handle := .neither,
    session_handle := .callback, before_send := none }

/-- Two live sessions (ids 1 and 2, so `next_session = 2`), protocol 7
configured with a session-level handler, nothing open yet. -/
def c1state : Service :=
  { st0 with
    protocol_configs := [("p", c1meta)],
    sessions := [(1, mkCtrl 1 none false), (2, mkCtrl 2 none false)],
    next_session := 2 }

/-- C1 fails on the code: `protocol_open` (External) on session 1 for
protocol 7 passes all three guards, yet the source calls
`handle_open(handle, proto_id, Some(self.next_session))`, so the fresh
session-level handler is registered under `(next_session, 7) = (2, 7)`
instead of `(1, 7)`, and the `ProtocolOpen` event delivered to session 1
carries `session_sender = None` instead of the fresh handler's sender —
contradicting the spec and the source's own comment that the service's
session handle sender must stay consistent with the substream's
sender. -/
theorem C1_protocol_open_external_wrong_session :
    alookup (protocol_open c1state 1 7 "" .external).session_proto_handles (1, 7) =
      none ∧
    (alookup (protocol_open c1state 1 7 "" .external).session_proto_handles
        (2, 7)).map HandleChan.hid = some 0 ∧
    (alookup (protocol_open c1state 1 7 "" .external).sessions 1).map
        (fun c => c.normal.buf) =
      some [SessionEvent.protocolOpen 1 7 "" none] := by
  refine ⟨?_, ?_, ?_⟩ <;> rfl

/-! ### Lemmas about the internal close path -/

/-- The open-protocol map after one internal protocol close. -/
def protosAfterClose (m : List (Nat × List Nat)) (sid pid : Nat) :
    List (Nat × List Nat) :=
  match alookup m sid with
  | some infos => ainsert m sid (serase infos pid)
  | none => m

theorem protosAfterClose_none (m : List (Nat × List Nat)) (sid pid k : Nat)
    (h : alookup m k = none) : alookup (protosAfterClose m sid pid) k = none := by
  unfold protosAfterClose
  cases hm : alookup m sid with
  | none => exact h
  | some infos =>
    have hne : k ≠ sid := by
      intro hh
      subst hh
      rw [h] at hm
      exact Option.noConfusion hm
    rw [alookup_ainsert_ne m sid k _ hne]
    exact h

/-- `protocol_close_internal` characterised: an optional `Disconnected`
notification, the protocol dropped from the session's open set, the
handle sender dropped. -/
theorem pcI_eq (st : Service) (sid pid : Nat) :
    ∃ Δ,
      protocol_close_internal st sid pid =
        { st with
          out := st.out ++ Δ,
          session_service_protos :=
            protosAfterClose st.session_service_protos sid pid,
          session_proto_handles := aerase st.session_proto_handles (sid, pid) } := by
  by_cases hev : pid ∈ st.config.event
  · cases hse : alookup st.sessions sid with
    | none =>
      refine ⟨[], ?_⟩
      cases hpr : alookup st.session_service_protos sid <;>
        simp [protocol_close_internal, protosAfterClose, hev, hse, hpr, emit]
    | some c =>
      refine ⟨[.handleProto (.disconnected pid c.inner)], ?_⟩
      cases hpr : alookup st.session_service_protos sid <;>
        simp [protocol_close_internal, protosAfterClose, hev, hse, hpr, emit]
  · refine ⟨[], ?_⟩
    cases hpr : alookup st.session_service_protos sid <;>
      simp [protocol_close_internal, protosAfterClose, hev, hpr, emit]

theorem pcI_sessions (st : Service) (sid pid : Nat) :
    (protocol_close_internal st sid pid).sessions = st.sessions := by
  obtain ⟨Δ, h⟩ := pcI_eq st sid pid
  rw [h]

theorem pcI_config (st : Service) (sid pid : Nat) :
    (protocol_close_internal st sid pid).config = st.config := by
  obtain ⟨Δ, h⟩ := pcI_eq st sid pid
  rw [h]

theorem pcI_write_buf (st : Service) (sid pid : Nat) :
    (protocol_close_internal st sid pid).write_buf = st.write_buf := by
  obtain ⟨Δ, h⟩ := pcI_eq st sid pid
  rw [h]

theorem pcI_high_write_buf (st : Service) (sid pid : Nat) :
    (protocol_close_internal st sid pid).high_write_buf = st.high_write_buf := by
  obtain ⟨Δ, h⟩ := pcI_eq st sid pid
  rw [h]

theorem pcI_read_service_buf (st : Service) (sid pid : Nat) :
    (protocol_close_internal st sid pid).read_service_buf = st.read_service_buf := by
  obtain ⟨Δ, h⟩ := pcI_eq st sid pid
  rw [h]

theorem pcI_read_session_buf (st : Service) (sid pid : Nat) :
    (protocol_close_internal st sid pid).read_session_buf = st.read_session_buf := by
  obtain ⟨Δ, h⟩ := pcI_eq st sid pid
  rw [h]

theorem pcI_service_proto_handles (st : Service) (sid pid : Nat) :
    (protocol_close_internal st sid pid).service_proto_handles =
      st.service_proto_handles := by
  obtain ⟨Δ, h⟩ := pcI_eq st sid pid
  rw [h]

theorem pcI_session_proto_handles (st : Service) (sid pid : Nat) :
    (protocol_close_internal st sid pid).session_proto_handles =
      aerase st.session_proto_handles (sid, pid) := by
  obtain ⟨Δ, h⟩ := pcI_eq st sid pid
  rw [h]

theorem pcI_session_service_protos (st : Service) (sid pid : Nat) :
    (protocol_close_internal st sid pid).session_service_protos =
      protosAfterClose st.session_service_protos sid pid := by
  obtain ⟨Δ, h⟩ := pcI_eq st sid pid
  rw [h]

theorem pcI_shutdown (st : Service) (sid pid : Nat) :
    (protocol_close_internal st sid pid).shutdown = st.shutdown := by
  obtain ⟨Δ, h⟩ := pcI_eq st sid pid
  rw [h]

theorem pcI_receivers (st : Service) (sid pid : Nat) :
    (protocol_close_internal st sid pid).quick_task_receiver = st.quick_task_receiver ∧
    (protocol_close_internal st sid pid).service_task_receiver =
      st.service_task_receiver ∧
    (protocol_close_internal st sid pid).session_event_receiver =
      st.session_event_receiver := by
  obtain ⟨Δ, h⟩ := pcI_eq st sid pid
  rw [h]
  exact ⟨rfl, rfl, rfl⟩

theorem pcI_out_mem (st : Service) (sid pid : Nat) (e : Effect) (he : e ∈ st.out) :
    e ∈ (protocol_close_internal st sid pid).out := by
  obtain ⟨Δ, h⟩ := pcI_eq st sid pid
  rw [h]
  exact List.mem_append_left Δ he

theorem pcI_disc_emit (st : Service) (sid pid : Nat) (c : SessionController)
    (hse : alookup st.sessions sid = some c) (hev : pid ∈ st.config.event) :
    Effect.handleProto (.disconnected pid c.inner) ∈
      (protocol_close_internal st sid pid).out := by
  simp [protocol_close_internal, hev, hse, emit]
  cases alookup st.session_service_protos sid <;> simp

/-- In the per-protocol close fold of `session_close`, every closed
protocol's session handle sender ends dropped. -/
theorem fold_pcI_sph_none (ps : List Nat) :
    ∀ (st : Service) (sid p : Nat), p ∈ ps →
      alookup ((ps.foldl (fun s q => protocol_close_internal s sid q)
        st).session_proto_handles) (sid, p) = none := by
  induction ps with
  | nil => intro st sid p hp; exact absurd hp (List.not_mem_nil p)
  | cons q rest ih =>
    intro st sid p hp
    simp only [List.foldl_cons]
    rcases List.mem_cons.mp hp with hpq | hp'
    · subst hpq
      refine foldl_pres
        (fun s => alookup s.session_proto_handles (sid, p) = none)
        (fun s q' => protocol_close_internal s sid q') ?_ rest
        (protocol_close_internal st sid p) ?_
      · intro s q' hs
        show alookup (protocol_close_internal s sid q').session_proto_handles
          (sid, p) = none
        rw [pcI_session_proto_handles]
        exact alookup_aerase_none _ _ _ hs
      · show alookup (protocol_close_internal st sid p).session_proto_handles
          (sid, p) = none
        rw [pcI_session_proto_handles]
        exact alookup_aerase_self _ _
    · exact ih (protocol_close_internal st sid q) sid p hp'

/-- In the per-protocol close fold, every subscribed closed protocol got
its `Disconnected` notification. -/
theorem fold_pcI_disc_mem (ps : List Nat) :
    ∀ (st : Service) (sid : Nat) (c : SessionController) (p : Nat),
      alookup st.sessions sid = some c → p ∈ ps → p ∈ st.config.event →
      Effect.handleProto (.disconnected p c.inner) ∈
        ((ps.foldl (fun s q => protocol_close_internal s sid q) st).out) := by
  induction ps with
  | nil => intro st sid c p _ hp _; exact absurd hp (List.not_mem_nil p)
  | cons q rest ih =>
    intro st sid c p hse hp hev
    simp only [List.foldl_cons]
    rcases List.mem_cons.mp hp with hpq | hp'
    · subst hpq
      refine foldl_pres
        (fun s => Effect.handleProto (.disconnected p c.inner) ∈ s.out)
        (fun s q' => protocol_close_internal s sid q') ?_ rest
        (protocol_close_internal st sid p) ?_
      · intro s q' hs
        exact pcI_out_mem s sid q' _ hs
      · exact pcI_disc_emit st sid p c hse hev
    · refine ih (protocol_close_internal st sid q) sid c p ?_ hp' ?_
      · rw [pcI_sessions]; exact hse
      · rw [pcI_config]; exact hev

theorem fold_pcI_sessions (ps : List Nat) (st : Service) (sid : Nat) :
    (ps.foldl (fun s q => protocol_close_internal s sid q) st).sessions =
      st.sessions :=
  foldl_proj Service.sessions _ (fun s q => pcI_sessions s sid q) ps st

theorem fold_pcI_write_buf (ps : List Nat) (st : Service) (sid : Nat) :
    (ps.foldl (fun s q => protocol_close_internal s sid q) st).write_buf =
      st.write_buf :=
  foldl_proj Service.write_buf _ (fun s q => pcI_write_buf s sid q) ps st

theorem fold_pcI_high_write_buf (ps : List Nat) (st : Service) (sid : Nat) :
    (ps.foldl (fun s q => protocol_close_internal s sid q) st).high_write_buf =
      st.high_write_buf :=
  foldl_proj Service.high_write_buf _ (fun s q => pcI_high_write_buf s sid q) ps st

theorem fold_pcI_read_service_buf (ps : List Nat) (st : Service) (sid : Nat) :
    (ps.foldl (fun s q => protocol_close_internal s sid q) st).read_service_buf =
      st.read_service_buf :=
  foldl_proj Service.read_service_buf _ (fun s q => pcI_read_service_buf s sid q) ps st

theorem fold_pcI_read_session_buf (ps : List Nat) (st : Service) (sid : Nat) :
    (ps.foldl (fun s q => protocol_close_internal s sid q) st).read_session_buf =
      st.read_session_buf :=
  foldl_proj Service.read_session_buf _ (fun s q => pcI_read_session_buf s sid q) ps st

theorem fold_pcI_service_proto_handles (ps : List Nat) (st : Service) (sid : Nat) :
    (ps.foldl (fun s q => protocol_close_internal s sid q) st).service_proto_handles =
      st.service_proto_handles :=
  foldl_proj Service.service_proto_handles _
    (fun s q => pcI_service_proto_handles s sid q) ps st

theorem fold_pcI_shutdown (ps : List Nat) (st : Service) (sid : Nat) :
    (ps.foldl (fun s q => protocol_close_internal s sid q) st).shutdown =
      st.shutdown :=
  foldl_proj Service.shutdown _ (fun s q => pcI_shutdown s sid q) ps st

theorem scI_sessions (st : Service) (id : Nat) :
    (session_close_internal st id).sessions = aerase st.sessions id := by
  rcases Bool.eq_false_or_eq_true st.config.keep_buffer with hk | hk <;>
    (simp only [session_close_internal, set_delay, hk, Bool.not_true, Bool.not_false,
      Bool.false_eq_true, if_false, if_true]
     split <;> simp [emit, fold_pcI_sessions])

theorem scI_write_buf (st : Service) (id : Nat) :
    (session_close_internal st id).write_buf =
      st.write_buf.filter (fun p => p.1 ≠ id) := by
  rcases Bool.eq_false_or_eq_true st.config.keep_buffer with hk | hk <;>
    (simp only [session_close_internal, set_delay, hk, Bool.not_true, Bool.not_false,
      Bool.false_eq_true, if_false, if_true]
     split <;> simp [emit, fold_pcI_write_buf])

theorem scI_high_write_buf (st : Service) (id : Nat) :
    (session_close_internal st id).high_write_buf =
      st.high_write_buf.filter (fun p => p.1 ≠ id) := by
  rcases Bool.eq_false_or_eq_true st.config.keep_buffer with hk | hk <;>
    (simp only [session_close_internal, set_delay, hk, Bool.not_true, Bool.not_false,
      Bool.false_eq_true, if_false, if_true]
     split <;> simp [emit, fold_pcI_high_write_buf])

theorem scI_read_session_buf (st : Service) (id : Nat) :
    (session_close_internal st id).read_session_buf =
      (if st.config.keep_buffer then st.read_session_buf
       else st.read_session_buf.filter (fun p => p.1 ≠ id)) := by
  rcases Bool.eq_false_or_eq_true st.config.keep_buffer with hk | hk <;>
    (simp only [session_close_internal, set_delay, hk, Bool.not_true, Bool.not_false,
      Bool.false_eq_true, if_false, if_true]
     split <;> simp [emit, fold_pcI_read_session_buf])

theorem scI_read_service_buf (st : Service) (id : Nat) :
    (session_close_internal st id).read_service_buf =
      (if st.config.keep_buffer then st.read_service_buf
       else st.read_service_buf.filter (fun p => p.1 ≠ some id)) := by
  rcases Bool.eq_false_or_eq_true st.config.keep_buffer with hk | hk <;>
    (simp only [session_close_internal, set_delay, hk, Bool.not_true, Bool.not_false,
      Bool.false_eq_true, if_false, if_true]
     split <;> simp [emit, fold_pcI_read_service_buf])

theorem scI_config (st : Service) (id : Nat) :
    (session_close_internal st id).config = st.config := by
  rcases Bool.eq_false_or_eq_true st.config.keep_buffer with hk | hk <;>
    (simp only [session_close_internal, set_delay, hk, Bool.not_true, Bool.not_false,
      Bool.false_eq_true, if_false, if_true]
     split <;>
       simp [emit,
         foldl_proj Service.config (fun s q => protocol_close_internal s id q)
           (fun s q => pcI_config s id q)])

theorem scI_service_proto_handles (st : Service) (id : Nat) :
    (session_close_internal st id).service_proto_handles =
      st.service_proto_handles := by
  rcases Bool.eq_false_or_eq_true st.config.keep_buffer with hk | hk <;>
    (simp only [session_close_internal, set_delay, hk, Bool.not_true, Bool.not_false,
      Bool.false_eq_true, if_false, if_true]
     split <;> simp [emit, fold_pcI_service_proto_handles])

theorem scI_shutdown (st : Service) (id : Nat) :
    (session_close_internal st id).shutdown = st.shutdown := by
  rcases Bool.eq_false_or_eq_true st.config.keep_buffer with hk | hk <;>
    (simp only [session_close_internal, set_delay, hk, Bool.not_true, Bool.not_false,
      Bool.false_eq_true, if_false, if_true]
     split <;> simp [emit, fold_pcI_shutdown])

theorem scI_receivers (st : Service) (id : Nat) :
    (session_close_internal st id).quick_task_receiver = st.quick_task_receiver ∧
    (session_close_internal st id).service_task_receiver = st.service_task_receiver ∧
    (session_close_internal st id).session_event_receiver =
      st.session_event_receiver := by
  rcases Bool.eq_false_or_eq_true st.config.keep_buffer with hk | hk <;>
    (simp only [session_close_internal, set_delay, hk, Bool.not_true, Bool.not_false,
      Bool.false_eq_true, if_false, if_true]
     split <;>
       (refine ⟨?_, ?_, ?_⟩ <;>
         simp [emit,
           foldl_proj Service.quick_task_receiver
             (fun s q => protocol_close_internal s id q)
             (fun s q => (pcI_receivers s id q).1),
           foldl_proj Service.service_task_receiver
             (fun s q => protocol_close_internal s id q)
             (fun s q => (pcI_receivers s id q).2.1),
           foldl_proj Service.session_event_receiver
             (fun s q => protocol_close_internal s id q)
             (fun s q => (pcI_receivers s id q).2.2)]))

theorem scI_session_service_protos_none (st : Service) (id : Nat) :
    alookup (session_close_internal st id).session_service_protos id = none := by
  rcases Bool.eq_false_or_eq_true st.config.keep_buffer with hk | hk <;>
    (simp only [session_close_internal, set_delay, hk, Bool.not_true, Bool.not_false,
      Bool.false_eq_true, if_false, if_true]
     split <;>
       (simp only [emit]
        refine foldl_pres
          (fun s => alookup s.session_service_protos id = none)
          (fun s q => protocol_close_internal s id q) ?_ _ _ ?_
        · intro s q hs
          rw [pcI_session_service_protos]
          exact protosAfterClose_none _ _ _ _ hs
        · exact alookup_aerase_self _ _))

theorem scI_session_proto_handles_none (st : Service) (id : Nat)
    (k : Nat × Nat) (h : alookup st.session_proto_handles k = none) :
    alookup (session_close_internal st id).session_proto_handles k = none := by
  rcases Bool.eq_false_or_eq_true st.config.keep_buffer with hk | hk <;>
    (simp only [session_close_internal, set_delay, hk, Bool.not_true, Bool.not_false,
      Bool.false_eq_true, if_false, if_true]
     split <;>
       (simp only [emit]
        refine foldl_pres
          (fun s => alookup s.session_proto_handles k = none)
          (fun s q => protocol_close_internal s id q) ?_ _ _ ?_
        · intro s q hs
          rw [pcI_session_proto_handles]
          exact alookup_aerase_none _ _ _ hs
        · exact h))

theorem emit_out_mem (st : Service) (ev : Effect) (e : Effect) (he : e ∈ st.out) :
    e ∈ (emit st ev).out :=
  List.mem_append_left _ he

theorem scI_out_mem (st : Service) (id : Nat) (e : Effect) (he : e ∈ st.out) :
    e ∈ (session_close_internal st id).out := by
  rcases Bool.eq_false_or_eq_true st.config.keep_buffer with hk | hk <;>
    (simp only [session_close_internal, set_delay, hk, Bool.not_true, Bool.not_false,
      Bool.false_eq_true, if_false, if_true]
     split
     · apply emit_out_mem
       refine foldl_pres (fun s => e ∈ s.out)
         (fun s q => protocol_close_internal s id q)
         (fun s q hs => pcI_out_mem s id q e hs) _ _ ?_
       exact he
     · refine foldl_pres (fun s => e ∈ s.out)
         (fun s q => protocol_close_internal s id q)
         (fun s q hs => pcI_out_mem s id q e hs) _ _ ?_
       exact he)

theorem scI_close_event_mem (st : Service) (id : Nat) (c : SessionController)
    (hc : alookup st.sessions id = some c) :
    Effect.handleEvent (.sessionClose c.inner) ∈ (session_close_internal st id).out := by
  rcases Bool.eq_false_or_eq_true st.config.keep_buffer with hk | hk <;>
    (simp only [session_close_internal, set_delay, hk, Bool.not_true, Bool.not_false,
      Bool.false_eq_true, if_false, if_true]
     split
     case _ control heq =>
       rw [fold_pcI_sessions] at heq
       have : control = c := by
         rw [hc] at heq
         exact (Option.some_inj.mp heq).symm
       subst this
       simp [emit]
     case _ heq =>
       rw [fold_pcI_sessions] at heq
       rw [hc] at heq
       exact Option.noConfusion heq)

theorem scI_handles_of_open (st : Service) (id : Nat) (p : Nat)
    (hp : p ∈ (alookup st.session_service_protos id).getD []) :
    alookup (session_close_internal st id).session_proto_handles (id, p) = none := by
  rcases Bool.eq_false_or_eq_true st.config.keep_buffer with hk | hk <;>
    (simp only [session_close_internal, set_delay, hk, Bool.not_true, Bool.not_false,
      Bool.false_eq_true, if_false, if_true]
     split <;>
       (simp only [emit]
        exact fold_pcI_sph_none _ _ id p hp))

theorem scI_disc_mem (st : Service) (id : Nat) (c : SessionController) (p : Nat)
    (hc : alookup st.sessions id = some c)
    (hp : p ∈ (alookup st.session_service_protos id).getD [])
    (hev : p ∈ st.config.event) :
    Effect.handleProto (.disconnected p c.inner) ∈
      (session_close_internal st id).out := by
  rcases Bool.eq_false_or_eq_true st.config.keep_buffer with hk | hk <;>
    (simp only [session_close_internal, set_delay, hk, Bool.not_true, Bool.not_false,
      Bool.false_eq_true, if_false, if_true]
     split
     · apply emit_out_mem
       exact fold_pcI_disc_mem _ _ id c p (by exact hc) hp (by exact hev)
     · exact fold_pcI_disc_mem _ _ id c p (by exact hc) hp (by exact hev))

/-! ### C3: internal session close -/

/-- A state with one live session, `keep_buffer = true`, and a queued
session-handler event for it. -/
def c3state : Service :=
  { st0 with
    config := { config0 with keep_buffer := true },
    sessions := [(1, mkCtrl 1 none false)],
    read_session_buf := [(1, 7, .removeNotify 0)] }

/-- Counterexample to C3 as stated: with `keep_buffer = true` the
internal session close does NOT purge the two read buffers, so an entry
for the closed session survives in `read_session_buf`. -/
theorem C3_counterexample :
    alookup c3state.sessions 1 = some (mkCtrl 1 none false) ∧
    c3state.config.keep_buffer = true ∧
    (session_close_internal c3state 1).read_session_buf = [(1, 7, .removeNotify 0)] := by
  refine ⟨rfl, rfl, ?_⟩
  rfl

/-- C3 (amended: the two read buffers are purged only when the
`keep_buffer` configuration is off; the write buffers are always
purged). An internal `session_close` on a live session drops its
open-protocol set, purges `write_buf` and `high_write_buf` of its
entries (and the read buffers when `keep_buffer` is false), closes every
open protocol internally (dropping each session handle sender and
notifying `Disconnected` for subscribed ones), removes the controller,
and notifies `SessionClose`. -/
theorem C3_session_close_internal (st : Service) (id : Nat) (c : SessionController)
    (hc : alookup st.sessions id = some c) :
    alookup (session_close_internal st id).session_service_protos id = none ∧
    (session_close_internal st id).write_buf =
      st.write_buf.filter (fun p => p.1 ≠ id) ∧
    (session_close_internal st id).high_write_buf =
      st.high_write_buf.filter (fun p => p.1 ≠ id) ∧
    (st.config.keep_buffer = false →
      (session_close_internal st id).read_session_buf =
        st.read_session_buf.filter (fun p => p.1 ≠ id) ∧
      (session_close_internal st id).read_service_buf =
        st.read_service_buf.filter (fun p => p.1 ≠ some id)) ∧
    alookup (session_close_internal st id).sessions id = none ∧
    Effect.handleEvent (.sessionClose c.inner) ∈ (session_close_internal st id).out ∧
    (∀ p ∈ (alookup st.session_service_protos id).getD [],
      alookup (session_close_internal st id).session_proto_handles (id, p) = none ∧
      (p ∈ st.config.event →
        Effect.handleProto (.disconnected p c.inner) ∈
          (session_close_internal st id).out)) := by
  refine ⟨scI_session_service_protos_none st id, scI_write_buf st id,
    scI_high_write_buf st id, ?_, ?_, scI_close_event_mem st id c hc, ?_⟩
  · intro hk
    rw [scI_read_session_buf, scI_read_service_buf, hk]
    simp
  · rw [scI_sessions]
    exact alookup_aerase_self _ _
  · intro p hp
    exact ⟨scI_handles_of_open st id p hp,
      fun hev => scI_disc_mem st id c p hc hp hev⟩

/-- A state with one live session with protocol 7 open (handler
registered) and entries in several buffers. -/
def c3wstate : Service :=
  { st0 with
    sessions := [(1, mkCtrl 1 none false)],
    session_service_protos := [(1, [7])],
    session_proto_handles := [((1, 7), { hid := 0, chan := Chan.empty RECEIVED_SIZE })],
    write_buf := [(1, .sessionClose 1), (2, .sessionClose 2)],
    high_write_buf := [(1, .protocolClose 1 7)],
    read_session_buf := [(1, 7, .removeNotify 0)] }

/-- Witness for C3 at a concrete live session. -/
theorem C3_session_close_internal_witness :
    alookup c3wstate.sessions 1 = some (mkCtrl 1 none false) ∧
    (alookup (session_close_internal c3wstate 1).session_service_protos 1 = none ∧
    (session_close_internal c3wstate 1).write_buf =
      c3wstate.write_buf.filter (fun p => p.1 ≠ 1) ∧
    (session_close_internal c3wstate 1).high_write_buf =
      c3wstate.high_write_buf.filter (fun p => p.1 ≠ 1) ∧
    (c3wstate.config.keep_buffer = false →
      (session_close_internal c3wstate 1).read_session_buf =
        c3wstate.read_session_buf.filter (fun p => p.1 ≠ 1) ∧
      (session_close_internal c3wstate 1).read_service_buf =
        c3wstate.read_service_buf.filter (fun p => p.1 ≠ some 1)) ∧
    alookup (session_close_internal c3wstate 1).sessions 1 = none ∧
    Effect.handleEvent (.sessionClose (mkCtrl 1 none false).inner) ∈
      (session_close_internal c3wstate 1).out ∧
    (∀ p ∈ (alookup c3wstate.session_service_protos 1).getD [],
      alookup (session_close_internal c3wstate 1).session_proto_handles (1, p) = none ∧
      (p ∈ c3wstate.config.event →
        Effect.handleProto (.disconnected p (mkCtrl 1 none false).inner) ∈
          (session_close_internal c3wstate 1).out))) :=
  ⟨rfl, C3_session_close_internal c3wstate 1 (mkCtrl 1 none false) rfl⟩

/-! ### C2: quick shutdown -/

theorem scI_session_proto_handles_nil (st : Service) (id : Nat)
    (h : st.session_proto_handles = []) :
    (session_close_internal st id).session_proto_handles = [] := by
  rcases Bool.eq_false_or_eq_true st.config.keep_buffer with hk | hk <;>
    (simp only [session_close_internal, set_delay, hk, Bool.not_true, Bool.not_false,
      Bool.false_eq_true, if_false, if_true]
     split <;>
       (refine foldl_pres (fun s => s.session_proto_handles = [])
          (fun s q => protocol_close_internal s id q) ?_ _ _ ?_
        · intro s q hs
          rw [pcI_session_proto_handles, hs]
          rfl
        · exact h))

theorem listen_close_fold_eq (l : List (Multiaddr × MultiIncoming)) :
    ∀ (st : Service),
    ∃ Δ, l.foldl (fun st p => emit st (.handleEvent (.listenClose p.1))) st =
      { st with out := st.out ++ Δ } := by
  induction l with
  | nil => intro st; exact ⟨[], by simp⟩
  | cons a rest ih =>
    intro st
    simp only [List.foldl_cons]
    obtain ⟨Δ, h⟩ := ih (emit st (.handleEvent (.listenClose a.1)))
    refine ⟨.handleEvent (.listenClose a.1) :: Δ, ?_⟩
    rw [h]
    simp [emit]

theorem fold_scI_high_nil :
    ∀ (ids : List Nat) (st : Service),
    (∀ e ∈ st.high_write_buf, e.1 ∈ ids) →
    ((ids.foldl (fun st i => session_close_internal st i) st).high_write_buf = []) := by
  intro ids
  induction ids with
  | nil =>
    intro st h
    exact List.eq_nil_iff_forall_not_mem.mpr
      (fun e he => absurd (h e he) (List.not_mem_nil e.1))
  | cons i rest ih =>
    intro st h
    simp only [List.foldl_cons]
    apply ih
    intro e he
    rw [scI_high_write_buf] at he
    have hmem := List.mem_filter.mp he
    have h1 := h e hmem.1
    have h2 : e.1 ≠ i := by simpa using hmem.2
    rcases List.mem_cons.mp h1 with h1 | h1
    · exact absurd h1 h2
    · exact h1

theorem fold_scI_sessions_nil :
    ∀ (ids : List Nat) (st : Service),
    (∀ e ∈ st.sessions, e.1 ∈ ids) →
    ((ids.foldl (fun st i => session_close_internal st i) st).sessions = []) := by
  intro ids
  induction ids with
  | nil =>
    intro st h
    exact List.eq_nil_iff_forall_not_mem.mpr
      (fun e he => absurd (h e he) (List.not_mem_nil e.1))
  | cons i rest ih =>
    intro st h
    simp only [List.foldl_cons]
    apply ih
    intro e he
    rw [scI_sessions] at he
    have hmem := List.mem_filter.mp he
    have h1 := h e hmem.1
    have h2 : e.1 ≠ i := by simpa using hmem.2
    rcases List.mem_cons.mp h1 with h1 | h1
    · exact absurd h1 h2
    · exact h1

theorem fold_scI_close_mem :
    ∀ (ids : List Nat) (st : Service) (id : Nat) (c : SessionController),
    id ∈ ids → alookup st.sessions id = some c →
    Effect.handleEvent (.sessionClose c.inner) ∈
      ((ids.foldl (fun st i => session_close_internal st i) st).out) := by
  intro ids
  induction ids with
  | nil => intro st id c hid _; exact absurd hid (List.not_mem_nil id)
  | cons i rest ih =>
    intro st id c hid hc
    simp only [List.foldl_cons]
    by_cases hii : id = i
    · subst hii
      refine foldl_pres (fun s => Effect.handleEvent (.sessionClose c.inner) ∈ s.out)
        (fun s i' => session_close_internal s i')
        (fun s i' hs => scI_out_mem s i' _ hs) rest _ ?_
      exact scI_close_event_mem st id c hc
    · have h' : id ∈ rest := by
        rcases List.mem_cons.mp hid with h | h
        · exact absurd h hii
        · exact h
      refine ih (session_close_internal st i) id c h' ?_
      rw [scI_sessions, alookup_aerase_ne st.sessions i id hii]
      exact hc

theorem fold_scI_quick_receiver (ids : List Nat) (st : Service) :
    (ids.foldl (fun st i => session_close_internal st i) st).quick_task_receiver =
      st.quick_task_receiver :=
  foldl_proj Service.quick_task_receiver _ (fun s i => (scI_receivers s i).1) ids st

theorem fold_scI_service_receiver (ids : List Nat) (st : Service) :
    (ids.foldl (fun st i => session_close_internal st i) st).service_task_receiver =
      st.service_task_receiver :=
  foldl_proj Service.service_task_receiver _ (fun s i => (scI_receivers s i).2.1) ids st

theorem fold_scI_session_receiver (ids : List Nat) (st : Service) :
    (ids.foldl (fun st i => session_close_internal st i) st).session_event_receiver =
      st.session_event_receiver :=
  foldl_proj Service.session_event_receiver _ (fun s i => (scI_receivers s i).2.2) ids st

/-- C2 (amended: `high_write_buf` is not cleared directly; its entries
are removed session by session by the internal closes, so all four
buffers end empty whenever every queued high-priority event addresses a
live session). `Shutdown(quick = true)` closes the three inbound
receivers, clears `write_buf`, both read buffers and both handler maps,
and closes every live session internally — emptying `sessions` and
notifying `SessionClose` for each. -/
theorem C2_shutdown_quick (st : Service)
    (hh : ∀ e ∈ st.high_write_buf, e.1 ∈ st.sessions.map Prod.fst) :
    (shutdownTask st true).quick_task_receiver.closed = true ∧
    (shutdownTask st true).service_task_receiver.closed = true ∧
    (shutdownTask st true).session_event_receiver.closed = true ∧
    (shutdownTask st true).write_buf = [] ∧
    (shutdownTask st true).high_write_buf = [] ∧
    (shutdownTask st true).read_service_buf = [] ∧
    (shutdownTask st true).read_session_buf = [] ∧
    (shutdownTask st true).service_proto_handles = [] ∧
    (shutdownTask st true).session_proto_handles = [] ∧
    (shutdownTask st true).sessions = [] ∧
    ∀ id c, alookup st.sessions id = some c →
      Effect.handleEvent (.sessionClose c.inner) ∈ (shutdownTask st true).out := by
  obtain ⟨Δ, hfold⟩ :=
    listen_close_fold_eq st.listens.reverse { st with state := st.state.pre_shutdown }
  simp only [shutdownTask, hfold, if_true]
  refine ⟨?_, ?_, ?_, ?_, ?_, ?_, ?_, ?_, ?_, ?_, ?_⟩
  · rw [fold_scI_quick_receiver]
    rfl
  · rw [fold_scI_service_receiver]
    rfl
  · rw [fold_scI_session_receiver]
    rfl
  · refine foldl_pres (fun s => s.write_buf = [])
      (fun s i => session_close_internal s i) ?_ _ _ ?_
    · intro s i hs
      rw [scI_write_buf, hs]
      rfl
    · rfl
  · refine fold_scI_high_nil _ _ ?_
    intro e he
    exact hh e (by exact he)
  · refine foldl_pres (fun s => s.read_service_buf = [])
      (fun s i => session_close_internal s i) ?_ _ _ ?_
    · intro s i hs
      rw [scI_read_service_buf, hs]
      split <;> rfl
    · rfl
  · refine foldl_pres (fun s => s.read_session_buf = [])
      (fun s i => session_close_internal s i) ?_ _ _ ?_
    · intro s i hs
      rw [scI_read_session_buf, hs]
      split <;> rfl
    · rfl
  · refine foldl_pres (fun s => s.service_proto_handles = [])
      (fun s i => session_close_internal s i) ?_ _ _ ?_
    · intro s i hs
      rw [scI_service_proto_handles, hs]
    · rfl
  · refine foldl_pres (fun s => s.session_proto_handles = [])
      (fun s i => session_close_internal s i) ?_ _ _ ?_
    · intro s i hs
      exact scI_session_proto_handles_nil s i hs
    · rfl
  · refine fold_scI_sessions_nil _ _ ?_
    intro e he
    exact List.mem_map_of_mem Prod.fst (a := e) (by exact he)
  · intro id c hc
    refine fold_scI_close_mem _ _ id c ?_ ?_
    · exact alookup_mem_keys st.sessions id c hc
    · exact hc

/-- A state whose `high_write_buf` holds an entry for a session id that
is not live. -/
def c2state : Service :=
  { st0 with high_write_buf := [(5, .sessionClose 5)] }

/-- Counterexample to C2 as stated: `Shutdown(true)` clears `write_buf`
and the two read buffers but not `high_write_buf`; an entry addressed to
a dead session survives, so not all four dispatch buffers are
emptied. -/
theorem C2_counterexample :
    (shutdownTask c2state true).high_write_buf = [(5, SessionEvent.sessionClose 5)] ∧
    (shutdownTask c2state true).write_buf = [] ∧
    (shutdownTask c2state true).read_service_buf = [] ∧
    (shutdownTask c2state true).read_session_buf = [] := by
  refine ⟨?_, ?_, ?_, ?_⟩ <;> rfl

/-- A populated state for the C2 witness: one live session with queued
events everywhere and both handler maps non-empty. -/
def c2wstate : Service :=
  { st0 with
    sessions := [(1, mkCtrl 1 none false)],
    high_write_buf := [(1, .sessionClose 1)],
    write_buf := [(1, .protocolClose 1 7)],
    read_session_buf := [(1, 7, .removeNotify 0)],
    read_service_buf := [(none, 7, .removeNotify 0)],
    service_proto_handles := [(7, { hid := 0, chan := Chan.empty RECEIVED_SIZE })],
    session_proto_handles := [((1, 7), { hid := 1, chan := Chan.empty RECEIVED_SIZE })] }

/-- Witness for C2 at a concrete populated state. -/
theorem C2_shutdown_quick_witness :
    (∀ e ∈ c2wstate.high_write_buf, e.1 ∈ c2wstate.sessions.map Prod.fst) ∧
    ((shutdownTask c2wstate true).quick_task_receiver.closed = true ∧
    (shutdownTask c2wstate true).service_task_receiver.closed = true ∧
    (shutdownTask c2wstate true).session_event_receiver.closed = true ∧
    (shutdownTask c2wstate true).write_buf = [] ∧
    (shutdownTask c2wstate true).high_write_buf = [] ∧
    (shutdownTask c2wstate true).read_service_buf = [] ∧
    (shutdownTask c2wstate true).read_session_buf = [] ∧
    (shutdownTask c2wstate true).service_proto_handles = [] ∧
    (shutdownTask c2wstate true).session_proto_handles = [] ∧
    (shutdownTask c2wstate true).sessions = [] ∧
    ∀ id c, alookup c2wstate.sessions id = some c →
      Effect.handleEvent (.sessionClose c.inner) ∈ (shutdownTask c2wstate true).out) :=
  ⟨by decide, C2_shutdown_quick c2wstate (by decide)⟩

/-! ### C10: inbound handshake failure is a no-op -/

/-- C10. `handle_session_event` on a `HandshakeFail`: an inbound failure
leaves the whole service state unchanged and invokes no callback; only an
outbound failure decrements the pending-connection counter, removes the
address from `dial_protocols`, and reports `DialerError` — touching
nothing else. -/
theorem C10_handshake_fail_inbound_noop (st : Service) (error : Error)
    (address : Multiaddr) :
    handle_session_event st (.handshakeFail .inbound error address) = st ∧
    handle_session_event st (.handshakeFail .outbound error address) =
      emit
        { st with
          state := st.state.decrease,
          dial_protocols := aerase st.dial_protocols address }
        (.handleError (.dialerError address error)) ∧
    (handle_session_event st (.handshakeFail .outbound error address)).state =
      st.state.decrease ∧
    (handle_session_event st (.handshakeFail .outbound error address)).dial_protocols =
      aerase st.dial_protocols address ∧
    (handle_session_event st (.handshakeFail .outbound error address)).out =
      st.out ++ [.handleError (.dialerError address error)] ∧
    (handle_session_event st (.handshakeFail .outbound error address)).sessions =
      st.sessions :=
  ⟨rfl, rfl, rfl, rfl, rfl, rfl⟩

/-! ### Shutdown-flag preservation (for C9) -/

theorem emit_shutdown (st : Service) (e : Effect) :
    (emit st e).shutdown = st.shutdown := rfl

theorem push_back_shutdown (st : Service) (pr : Priority) (id : Nat)
    (ev : SessionEvent) : (push_back st pr id ev).shutdown = st.shutdown := by
  obtain ⟨hw, wb, h⟩ := push_back_eq st pr id ev
  rw [h]

theorem dts_shutdown (st : Service) :
    (distribute_to_session st).shutdown = st.shutdown :=
  (dts_frame st).2.2.2.2.1

theorem handle_open_service_shutdown (st : Service) (pid : Nat) :
    (handle_open_service st pid).shutdown = st.shutdown := rfl

theorem handle_open_session_shutdown (st : Service) (pid id : Nat) :
    (handle_open_session st pid id).shutdown = st.shutdown := by
  unfold handle_open_session
  cases alookup st.sessions id <;> rfl

theorem send_message_to_shutdown (st : Service) (sid pid : Nat) (pr : Priority)
    (data : Bytes) : (send_message_to st sid pid pr data).shutdown = st.shutdown := by
  unfold send_message_to
  split
  · rw [dts_shutdown, push_back_shutdown]
  · rfl

theorem filter_broadcast_shutdown (st : Service) (ids : List Nat) (pid : Nat)
    (pr : Priority) (data : Bytes) :
    (filter_broadcast st ids pid pr data).shutdown = st.shutdown := by
  unfold filter_broadcast
  rw [dts_shutdown]
  refine foldl_proj Service.shutdown _ ?_ _ st
  intro s i
  by_cases h : i ∈ ids
  · simp only [h, if_true]
    exact push_back_shutdown s pr i _
  · simp only [h, if_false]

theorem broadcast_shutdown (st : Service) (pid : Nat) (pr : Priority) (data : Bytes) :
    (broadcast st pid pr data).shutdown = st.shutdown := by
  unfold broadcast
  rw [dts_shutdown]
  exact foldl_proj Service.shutdown _ (fun s i => push_back_shutdown s pr i _) _ st

theorem protocol_close_external_shutdown (st : Service) (sid pid : Nat) :
    (protocol_close_external st sid pid).shutdown = st.shutdown := by
  unfold protocol_close_external
  rw [dts_shutdown]

theorem session_close_external_shutdown (st : Service) (id : Nat) :
    (session_close_external st id).shutdown = st.shutdown := by
  unfold session_close_external
  rw [dts_shutdown]

theorem protocol_open_external_shutdown (st : Service) (id pid : Nat) (v : String) :
    (protocol_open_external st id pid v).shutdown = st.shutdown := by
  unfold protocol_open_external
  split
  · rw [dts_shutdown]
    split
    · rw [handle_open_session_shutdown]
    · rfl
  · rfl

theorem protocol_open_internal_shutdown (st : Service) (id pid : Nat) (v : String) :
    (protocol_open_internal st id pid v).shutdown = st.shutdown := by
  unfold protocol_open_internal
  dsimp only
  split
  · split <;> rfl
  · rfl

theorem protocol_message_shutdown (st : Service) (sid pid : Nat) (data : Bytes) :
    (protocol_message st sid pid data).shutdown = st.shutdown := by
  unfold protocol_message
  split
  · split <;> rfl
  · rfl

theorem shutdownTask_shutdown (st : Service) (quick : Bool) :
    (shutdownTask st quick).shutdown = st.shutdown := by
  obtain ⟨Δ, hfold⟩ :=
    listen_close_fold_eq st.listens.reverse { st with state := st.state.pre_shutdown }
  simp only [shutdownTask, hfold]
  split
  · exact foldl_proj Service.shutdown _ (fun s i => scI_shutdown s i) _ _
  · exact foldl_proj Service.shutdown _
      (fun s i => session_close_external_shutdown s i) _ _

theorem proto_handle_error_shutdown (st : Service) (pid : Nat) (sid : Option Nat) :
    (proto_handle_error st pid sid).shutdown = st.shutdown := by
  unfold proto_handle_error
  rfl

theorem user_service_process_shutdown
    (l : List (Option Nat × Nat × ServiceProtocolEvent)) :
    ∀ (st : Service) (b : List Nat) (er : Bool),
    (user_service_process st b er l).1.shutdown = st.shutdown := by
  induction l with
  | nil => intro st b er; rfl
  | cons hd tl ih =>
    intro st b er
    obtain ⟨sid, pid, ev⟩ := hd
    simp only [user_service_process]
    by_cases hb : pid ∈ b
    · simp only [if_pos hb]
      rw [ih]
    · simp only [if_neg hb]
      cases hlk : alookup st.service_proto_handles pid with
      | none => exact ih st b er
      | some sender =>
        simp only
        rcases hts : sender.chan.trySend ev with ⟨res, ch⟩
        cases res with
        | sent => rw [ih]
        | full ev2 =>
          dsimp only
          rw [ih, proto_handle_error_shutdown]
        | closed =>
          dsimp only
          rw [ih, emit_shutdown]

theorem user_session_process_shutdown
    (l : List (Nat × Nat × SessionProtocolEvent)) :
    ∀ (st : Service) (er : Bool),
    (user_session_process st er l).1.shutdown = st.shutdown := by
  induction l with
  | nil => intro st er; rfl
  | cons hd tl ih =>
    intro st er
    obtain ⟨sid, pid, ev⟩ := hd
    simp only [user_session_process]
    cases hlk : alookup st.session_proto_handles (sid, pid) with
    | none => exact ih st er
    | some sender =>
      simp only
      rcases hts : sender.chan.trySend ev with ⟨res, ch⟩
      cases res with
      | sent => rw [ih]
      | full ev2 =>
        dsimp only
        rw [ih, proto_handle_error_shutdown]
      | closed =>
        dsimp only
        rw [ih, emit_shutdown]

theorem dtul_closed_phase_shutdown (st : Service) :
    (dtul_closed_phase st).shutdown = st.shutdown :=
  foldl_proj Service.shutdown _ (fun s i => scI_shutdown s i) _ st

theorem dtul_service_phase_shutdown (st : Service) :
    (dtul_service_phase st).1.shutdown = st.shutdown := by
  unfold dtul_service_phase
  rw [user_service_process_shutdown]

theorem dtul_session_phase_shutdown (st : Service) (er : Bool) :
    (dtul_session_phase st er).1.shutdown = st.shutdown := by
  unfold dtul_session_phase
  rw [user_session_process_shutdown]

theorem distribute_to_user_level_shutdown (st : Service) :
    (distribute_to_user_level st).shutdown = st.shutdown := by
  unfold distribute_to_user_level
  split
  · rfl
  · dsimp only
    split
    · rw [shutdownTask_shutdown, dtul_session_phase_shutdown,
        dtul_service_phase_shutdown, dtul_closed_phase_shutdown]
    · rw [dtul_session_phase_shutdown, dtul_service_phase_shutdown,
        dtul_closed_phase_shutdown]

theorem update_listens_shutdown (st : Service) :
    (update_listens st).shutdown = st.shutdown := by
  unfold update_listens
  split
  · rfl
  · rw [distribute_to_user_level_shutdown]
    rw [foldl_proj Service.shutdown
      (fun (s : Service) (p : (Nat × Nat) × HandleChan SessionProtocolEvent) =>
        { s with
          read_session_buf :=
            s.read_session_buf ++
              [(p.1.1, p.1.2, .update (st.listens.map Prod.fst))] })
      (fun s p => rfl)]
    rw [foldl_proj Service.shutdown
      (fun (s : Service) (p : Nat × HandleChan ServiceProtocolEvent) =>
        { s with
          read_service_buf :=
            s.read_service_buf ++
              [(none, p.1, .update (st.listens.map Prod.fst))] })
      (fun s p => rfl)]

theorem open_proto_streams_shutdown (st : Service) (target : TargetProtocol) :
    (open_proto_streams st target).shutdown = st.shutdown := by
  cases target with
  | all =>
    simp only [open_proto_streams]
    exact foldl_proj Service.shutdown
      (fun s p => emit s (Effect.openProtoStream p.1)) (fun s p => rfl)
      st.protocol_configs st
  | single proto_id =>
    simp only [open_proto_streams]
    cases st.protocol_configs.find? (fun p => p.2.id == proto_id) <;> rfl
  | multi proto_ids =>
    simp only [open_proto_streams]
    exact foldl_proj Service.shutdown
      (fun s p => emit s (Effect.openProtoStream p.2.name)) (fun s p => rfl)
      (st.protocol_configs.filter (fun p => p.2.id ∈ proto_ids)) st

theorem handles_fold_shutdown (ids : List Nat) (st : Service) :
    (ids.foldl
      (fun st proto_id =>
        if proto_handle_exists st true proto_id then
          handle_open_session st proto_id st.next_session
        else st) st).shutdown = st.shutdown := by
  refine foldl_proj Service.shutdown _ ?_ ids st
  intro s pid
  by_cases h : proto_handle_exists s true pid
  · simp [h, handle_open_session_shutdown]
  · simp [h]

theorem session_open_rest_shutdown (st : Service) (rpk : Option PublicKey)
    (address : Multiaddr) (ty : SessionType) (target : TargetProtocol) :
    (session_open_rest st rpk address ty target).shutdown = st.shutdown := by
  unfold session_open_rest
  rw [emit_shutdown]
  split
  · rw [open_proto_streams_shutdown, emit_shutdown, handles_fold_shutdown]
  · rw [emit_shutdown, handles_fold_shutdown]

theorem session_open_shutdown (st : Service) (socket : Nat)
    (rpk : Option PublicKey) (address : Multiaddr) (ty : SessionType) :
    (session_open st socket rpk address ty).shutdown = st.shutdown := by
  cases ty <;>
    (cases rpk with
     | none =>
       simp only [session_open, SessionType.is_outbound, if_true,
         Bool.false_eq_true, if_false]
       rw [session_open_rest_shutdown]
     | some key =>
       simp only [session_open, SessionType.is_outbound, if_true,
         Bool.false_eq_true, if_false]
       split
       · rfl
       · split
         · split
           · rfl
           · rw [session_open_rest_shutdown]
         · rw [session_open_rest_shutdown])

theorem handshake_shutdown (st : Service) (socket : Nat) (ty : SessionType)
    (address : Multiaddr) : (handshake st socket ty address).shutdown = st.shutdown := by
  unfold handshake
  cases st.service_context.key_pair with
  | none => rw [session_open_shutdown]
  | some k => rfl

theorem listen_poll_go_shutdown (l : List (Multiaddr × MultiIncoming)) :
    ∀ (st : Service) (kept : List (Multiaddr × MultiIncoming)) (update : Bool),
    (listen_poll_go st kept update l).1.shutdown = st.shutdown := by
  induction l with
  | nil => intro st kept update; rfl
  | cons hd tl ih =>
    intro st kept update
    obtain ⟨address, incoming⟩ := hd
    cases incoming with
    | nil => exact ih st _ update
    | cons ip rest =>
      cases ip with
      | conn raddr socket =>
        simp only [listen_poll_go]
        rw [ih, handshake_shutdown]
      | finished =>
        simp only [listen_poll_go]
        rw [ih, emit_shutdown]
      | notReady => exact ih st _ update
      | ioErr =>
        simp only [listen_poll_go]
        rw [ih, emit_shutdown, emit_shutdown]

theorem listen_poll_shutdown (st : Service) :
    (listen_poll st).shutdown = st.shutdown := by
  unfold listen_poll
  dsimp only
  split
  · rw [update_listens_shutdown]
    show (listen_poll_go { st with listens := [] } [] false st.listens).1.shutdown =
      st.shutdown
    rw [listen_poll_go_shutdown]
  · show (listen_poll_go { st with listens := [] } [] false st.listens).1.shutdown =
      st.shutdown
    rw [listen_poll_go_shutdown]

theorem handle_session_event_shutdown (st : Service) (event : SessionEvent) :
    (handle_session_event st event).shutdown = st.shutdown := by
  cases event with
  | sessionClose id => exact scI_shutdown st id
  | handshakeSuccess handle key address ty =>
    simp only [handle_session_event]
    rw [session_open_shutdown]
  | handshakeFail ty error address =>
    simp only [handle_session_event]
    split
    · rw [emit_shutdown]
    · rfl
  | protocolMessage id pid pr data => exact protocol_message_shutdown st id pid data
  | protocolOpen id pid v s => exact protocol_open_internal_shutdown st id pid v
  | protocolClose id pid => exact pcI_shutdown st id pid
  | protocolSelectError id name =>
    simp only [handle_session_event]
    cases alookup st.sessions id <;> rfl
  | protocolError id pid error => rfl
  | dialError address error => rfl
  | listenError address error => rfl
  | sessionTimeout id =>
    simp only [handle_session_event]
    cases alookup st.sessions id <;> rfl
  | muxerError id error =>
    simp only [handle_session_event]
    cases alookup st.sessions id <;> rfl
  | listenStart address incoming =>
    simp only [handle_session_event]
    rw [listen_poll_shutdown, update_listens_shutdown]
    exact emit_shutdown st (.handleEvent (.listenStarted address))
  | dialStart address stream =>
    simp only [handle_session_event]
    rw [handshake_shutdown]

theorem listen_shutdown (st : Service) (address : Multiaddr) :
    (listen st address).shutdown = st.shutdown := rfl

theorem dial_inner_shutdown (st : Service) (address : Multiaddr)
    (target : TargetProtocol) : (dial_inner st address target).shutdown = st.shutdown :=
  rfl

theorem send_pending_go_shutdown (l : List Unit) :
    ∀ (st : Service), (send_pending_go st l).shutdown = st.shutdown := by
  induction l with
  | nil => intro st; rfl
  | cons t rest ih =>
    intro st
    simp only [send_pending_go]
    rcases hts : st.future_task_sender.trySend t with ⟨res, ch⟩
    cases res with
    | sent => rw [ih]
    | full a => rfl
    | closed => rw [ih]

theorem send_pending_task_shutdown (st : Service) :
    (send_pending_task st).shutdown = st.shutdown := by
  unfold send_pending_task
  rw [send_pending_go_shutdown]

theorem send_future_task_shutdown (st : Service) :
    (send_future_task st).shutdown = st.shutdown := by
  unfold send_future_task
  rw [send_pending_task_shutdown]

theorem notify_queue_shutdown (st : Service) :
    (notify_queue st).shutdown = st.shutdown :=
  send_future_task_shutdown st

theorem init_proto_handles_shutdown (st : Service) :
    (init_proto_handles st).shutdown = st.shutdown := by
  unfold init_proto_handles
  dsimp only
  refine Eq.trans (foldl_proj Service.shutdown _ ?_ _ _) rfl
  intro s idb
  dsimp only
  by_cases h : proto_handle_exists s false idb.1
  · simp only [h, if_true]
    cases idb.2 with
    | none => rw [handle_open_service_shutdown]
    | some f => rw [handle_open_service_shutdown]
  · simp only [h, Bool.false_eq_true, if_false]
    cases idb.2 with
    | none => rfl
    | some f => rfl

theorem handle_service_task_shutdown (st : Service) (event : ServiceTask) :
    (handle_service_task st event).shutdown = st.shutdown := by
  cases event with
  | protocolMessage target pid pr data =>
    simp only [handle_service_task]
    cases target with
    | single id =>
      cases alookup st.before_sends pid <;>
        (simp only; rw [send_message_to_shutdown])
    | multi ids =>
      cases alookup st.before_sends pid <;>
        (simp only; rw [filter_broadcast_shutdown])
    | all =>
      cases alookup st.before_sends pid <;>
        (simp only; rw [broadcast_shutdown])
  | dial address target =>
    simp only [handle_service_task]
    split
    · rfl
    · rw [dial_inner_shutdown]
  | listen address =>
    simp only [handle_service_task]
    split
    · rfl
    · rw [listen_shutdown]
  | disconnect sid => exact session_close_external_shutdown st sid
  | futureTask => exact send_future_task_shutdown st
  | setProtocolNotify pid interval token =>
    simp only [handle_service_task]
    split
    · rw [distribute_to_user_level_shutdown]
    · rfl
  | removeProtocolNotify pid token =>
    simp only [handle_service_task]
    split
    · rw [distribute_to_user_level_shutdown]
    · rfl
  | setProtocolSessionNotify sid pid interval token =>
    simp only [handle_service_task]
    split
    · rw [distribute_to_user_level_shutdown]
    · rfl
  | removeProtocolSessionNotify sid pid token =>
    simp only [handle_service_task]
    split
    · rfl
    · rfl
  | protocolOpen sid target =>
    simp only [handle_service_task]
    cases target with
    | all =>
      exact foldl_proj Service.shutdown _
        (fun s i => protocol_open_external_shutdown s sid i "") _ st
    | single i => exact protocol_open_external_shutdown st sid i ""
    | multi ids =>
      exact foldl_proj Service.shutdown _
        (fun s i => protocol_open_external_shutdown s sid i "") _ st
  | protocolClose sid pid => exact protocol_close_external_shutdown st sid pid
  | shutdown quick => exact shutdownTask_shutdown st quick

theorem poll_quick_task_shutdown (st : Service) :
    (poll_quick_task st).2.shutdown = st.shutdown := by
  unfold poll_quick_task
  rcases st.quick_task_receiver.pollNext with ⟨t, r⟩
  cases t <;> rfl

theorem poll_normal_task_shutdown (st : Service) :
    (poll_normal_task st).2.shutdown = st.shutdown := by
  unfold poll_normal_task
  rcases st.service_task_receiver.pollNext with ⟨t, r⟩
  cases t <;> rfl

theorem user_task_go_shutdown (n : Nat) :
    ∀ (st : Service), (user_task_go n st).1.shutdown = st.shutdown := by
  induction n with
  | zero => intro st; rfl
  | succ n ih =>
    intro st
    simp only [user_task_go]
    split
    · rfl
    · rcases hq : poll_quick_task st with ⟨tq, st1⟩
      have hst1 : st1.shutdown = st.shutdown := by
        have := poll_quick_task_shutdown st
        rw [hq] at this
        exact this
      cases tq with
      | some t =>
        dsimp only
        rw [ih, handle_service_task_shutdown, hst1]
      | none =>
        by_cases hc : st1.write_buf.length ≤ st1.config.send_event_size
        · rcases hn : poll_normal_task st1 with ⟨tn, st2⟩
          have hst2 : st2.shutdown = st1.shutdown := by
            have h2 := poll_normal_task_shutdown st1
            rw [hn] at h2
            exact h2
          rw [if_pos hc]
          cases tn with
          | some t =>
            have h3 := ih (handle_service_task st2 t)
            rw [handle_service_task_shutdown, hst2, hst1] at h3
            exact h3
          | none =>
            show st2.shutdown = st.shutdown
            rw [hst2, hst1]
        · rw [if_neg hc]
          show st1.shutdown = st.shutdown
          exact hst1

theorem user_task_poll_shutdown (st : Service) :
    (user_task_poll st).shutdown = st.shutdown := by
  unfold user_task_poll
  dsimp only
  split
  · rw [user_task_go_shutdown]
  · show (set_delay (user_task_go 512 st).1).shutdown = st.shutdown
    rw [show (set_delay (user_task_go 512 st).1).shutdown =
      (user_task_go 512 st).1.shutdown from rfl]
    rw [user_task_go_shutdown]

theorem session_go_shutdown (n : Nat) :
    ∀ (st : Service), (session_go n st).1.shutdown = st.shutdown := by
  induction n with
  | zero => intro st; rfl
  | succ n ih =>
    intro st
    simp only [session_go]
    split
    · rfl
    · rcases he : st.session_event_receiver.pollNext with ⟨ev, r⟩
      cases ev with
      | some event =>
        dsimp only
        rw [ih, handle_session_event_shutdown]
      | none => rfl

theorem session_poll_shutdown (st : Service) :
    (session_poll st).shutdown = st.shutdown := by
  unfold session_poll
  dsimp only
  split
  · rw [session_go_shutdown]
  · show (set_delay (session_go 64 st).1).shutdown = st.shutdown
    rw [show (set_delay (session_go 64 st).1).shutdown =
      (session_go 64 st).1.shutdown from rfl]
    rw [session_go_shutdown]

theorem first_turn_init_shutdown (st : Service) :
    (first_turn_init st).shutdown = st.shutdown := by
  unfold first_turn_init
  split
  · rw [init_proto_handles_shutdown, notify_queue_shutdown, emit_shutdown]
  · rfl

theorem poll_work_shutdown (st : Service) :
    (poll_work st).shutdown = st.shutdown := by
  unfold poll_work
  rw [send_pending_task_shutdown, user_task_poll_shutdown, session_poll_shutdown,
    listen_poll_shutdown]
  split <;> split <;>
    simp only [distribute_to_user_level_shutdown, dts_shutdown, first_turn_init_shutdown]

/-- C9. `poll` returns `done` — the stream ends — exactly when the drain
condition (listener list empty, state reports shut down, sessions map
empty, pending-task deque empty) holds either at the head of `poll`,
before any work, or at the tail after this turn's work (`poll_work`);
a drain stores `true` into the shutdown flag, otherwise the flag is left
as it was and `poll` returns `notReady`. -/
theorem C9_poll_drain_checks (st : Service) :
    (poll st).2
      = (if drain_cond st || drain_cond (poll_work st) then PollResult.done
         else PollResult.notReady)
    ∧ (poll st).1.shutdown
      = (drain_cond st || drain_cond (poll_work st) || st.shutdown) := by
  unfold poll
  rcases Bool.eq_false_or_eq_true (drain_cond st) with h1 | h1 <;>
    rcases Bool.eq_false_or_eq_true (drain_cond (poll_work st)) with h2 | h2 <;>
      simp [h1, h2, poll_work_shutdown]

end P2P
